import Mathlib

/-!
Verification of the three-phase wizard of `streamlit_app.py`
(business-stress-test-engine).

The program is a Streamlit script.  Each user interaction re-runs the
script top to bottom with the persistent `st.session_state`; at most one
widget event is active per run.  We embed:

  * JSON values (`Json`) as produced by Python's `json.loads`, together
    with Python truthiness, dict indexing, and a model of
    `json.dumps(v, indent=2)` / `json.loads` (the standard-library codec
    used by the script for the export artifact and prompt embedding);
  * the fixed data tables (`DEMO_SCENARIOS`, the three response schemas);
  * `call_cerebras` over an abstract outcome of the external API call;
  * the session state and one script run as a transition function `step`.
-/

set_option maxRecDepth 8000

namespace StressTest

/-- JSON values as handled by the script: everything the script stores in
`st.session_state` (parsed model replies, the business-context dict) is a
value of this shape.  Floats never occur in the script's data and are not
modelled. -/
inductive Json where
  | null : Json
  | bool (b : Bool) : Json
  | str (s : String) : Json
  | int (n : Int) : Json
  | arr (items : List Json) : Json
  | obj (fields : List (String × Json)) : Json
  deriving Repr

/-- Python truthiness of a parsed JSON value, as used by the script's
`if result:` / `if st.session_state.spectrum_data:` guards:
`None`, `False`, `0`, `""`, `[]` and `{}` are falsy. -/
def Json.truthy : Json → Bool
  | .null => false
  | .bool b => b
  | .str s => !s.isEmpty
  | .int n => n != 0
  | .arr items => !items.isEmpty
  | .obj fields => !fields.isEmpty

/-- Python dict indexing `d[k]` on a JSON value; `none` models the raised
`KeyError` (missing key) or `TypeError` (not a dict). -/
def Json.get? : Json → String → Option Json
  | .obj fields, k => fields.lookup k
  | _, _ => none

/-! ## A model of `json.dumps(v, indent=2)` and `json.loads`

The script serializes with the standard library: the export artifact uses
`json.dumps(full_report, indent=2)` and replies are parsed with
`json.loads`.  We model the codec for the `Json` fragment above. -/

/-- Decimal digit character. -/
def digCh (d : Nat) : Char := Char.ofNat (48 + d)

/-- Decimal digits of a natural number, most significant first (empty for 0). -/
def natDigits : Nat → List Char
  | 0 => []
  | n + 1 => natDigits ((n + 1) / 10) ++ [digCh ((n + 1) % 10)]
decreasing_by exact Nat.div_lt_self (Nat.succ_pos _) (by norm_num)

/-- Decimal representation of a natural number. -/
def natRepr (m : Nat) : List Char := if m = 0 then ['0'] else natDigits m

/-- Lower-case hexadecimal digit character, as emitted by `json.dumps`
for control characters. -/
def hexDigit (d : Nat) : Char :=
  if d < 10 then Char.ofNat (48 + d) else Char.ofNat (87 + d)

/-- Escape one character of a JSON string the way `json.dumps` does:
quote, backslash and control characters are escaped, everything else is
emitted verbatim. -/
def escChar (c : Char) : List Char :=
  if c = '"' then ['\\', '"']
  else if c = '\\' then ['\\', '\\']
  else if c = '\n' then ['\\', 'n']
  else if c = '\t' then ['\\', 't']
  else if c = '\r' then ['\\', 'r']
  else if c.toNat = 8 then ['\\', 'b']
  else if c.toNat = 12 then ['\\', 'f']
  else if c.toNat < 32 then ['\\', 'u', '0', '0', hexDigit (c.toNat / 16), hexDigit (c.toNat % 16)]
  else [c]

/-- Escape a character list. -/
def escList : List Char → List Char
  | [] => []
  | c :: cs => escChar c ++ escList cs

/-- A JSON string literal: opening quote, escaped body, closing quote. -/
def quoteStr (s : String) : List Char := '"' :: (escList s.data ++ ['"'])

/-- Indentation: `n` spaces. -/
def pad (n : Nat) : List Char := List.replicate n ' '

mutual
/-- Serialization of a JSON value at indentation depth `d`, following
`json.dumps(v, indent=2)`: containers open with a newline, indent their
members by two more spaces, separate them with `",\n"`, and close on a
fresh line at the enclosing depth; the key separator is `": "`; empty
containers print as `[]` / `{}`. -/
def serVal (d : Nat) : Json → List Char
  | .null => 'n' :: ['u', 'l', 'l']
  | .bool true => 't' :: ['r', 'u', 'e']
  | .bool false => 'f' :: ['a', 'l', 's', 'e']
  | .str s => quoteStr s
  | .int n => if n < 0 then '-' :: natRepr n.natAbs else natRepr n.natAbs
  | .arr [] => ['[', ']']
  | .arr (x :: xs) =>
      '[' :: '\n' :: (pad (d + 2) ++ serItems (d + 2) (x :: xs) ++ '\n' :: (pad d ++ [']']))
  | .obj [] => ['{', '}']
  | .obj (f :: fs) =>
      '{' :: '\n' :: (pad (d + 2) ++ serFields (d + 2) (f :: fs) ++ '\n' :: (pad d ++ ['}']))

/-- Array members at depth `d`, separated by `",\n" ++ pad d`. -/
def serItems (d : Nat) : List Json → List Char
  | [] => []
  | [x] => serVal d x
  | x :: y :: ys => serVal d x ++ ',' :: '\n' :: (pad d ++ serItems d (y :: ys))

/-- Object members at depth `d`, `"key": value`, separated by `",\n" ++ pad d`. -/
def serFields (d : Nat) : List (String × Json) → List Char
  | [] => []
  | [f] => quoteStr f.1 ++ ':' :: ' ' :: serVal d f.2
  | f :: g :: gs =>
      quoteStr f.1 ++ ':' :: ' ' :: serVal d f.2 ++ ',' :: '\n' :: (pad d ++ serFields d (g :: gs))
end

/-- Model of `json.dumps(v, indent=2)`. -/
def Json.dumps (v : Json) : String := String.mk (serVal 0 v)

/-- JSON insignificant whitespace. -/
def isWsChar (c : Char) : Bool := c = ' ' || c = '\n' || c = '\t' || c = '\r'

/-- Skip insignificant whitespace. -/
def skipWs : List Char → List Char
  | [] => []
  | c :: cs => if isWsChar c then skipWs cs else c :: cs

/-- Value of one hexadecimal digit character. -/
def hexVal (c : Char) : Option Nat :=
  if '0' ≤ c ∧ c ≤ '9' then some (c.toNat - 48)
  else if 'a' ≤ c ∧ c ≤ 'f' then some (c.toNat - 87)
  else if 'A' ≤ c ∧ c ≤ 'F' then some (c.toNat - 55)
  else none

/-- Single-character escape sequences accepted by `json.loads`. -/
def unescChar (e : Char) : Option Char :=
  if e = 'n' then some '\n'
  else if e = 't' then some '\t'
  else if e = 'r' then some '\r'
  else if e = '"' ∨ e = '\\' ∨ e = '/' then some e
  else if e = 'b' then some (Char.ofNat 8)
  else if e = 'f' then some (Char.ofNat 12)
  else none

/-- Body of a JSON string literal after the opening quote: unescapes the
escape sequences accepted by `json.loads` and stops at the closing quote.
(Surrogate-pair recombination for astral `\uXXXX` pairs is not modelled;
the serializer only emits `\u00XX`.) -/
def parseStrBody : List Char → Option (List Char × List Char)
  | [] => none
  | c :: cs =>
      if c = '"' then some ([], cs)
      else if c = '\\' then
        match cs with
        | [] => none
        | e :: cs' =>
            if e = 'u' then
              match cs' with
              | h1 :: h2 :: h3 :: h4 :: cs'' =>
                  (match hexVal h1, hexVal h2, hexVal h3, hexVal h4 with
                   | some a, some b, some c', some e' =>
                       (parseStrBody cs'').map
                         (fun (body, rest) =>
                           (Char.ofNat (((a * 16 + b) * 16 + c') * 16 + e') :: body, rest))
                   | _, _, _, _ => none)
              | _ => none
            else
              match unescChar e with
              | some ch => (parseStrBody cs').map (fun (body, rest) => (ch :: body, rest))
              | none => none
      else (parseStrBody cs).map (fun (body, rest) => (c :: body, rest))

/-- Munch decimal digits, accumulating their value; stops at the first
non-digit. -/
def parseNatAcc : List Char → Nat → Nat × List Char
  | [], acc => (acc, [])
  | c :: cs, acc =>
      if c.isDigit then parseNatAcc cs (acc * 10 + (c.toNat - 48)) else (acc, c :: cs)

/-- A decimal natural number: at least one digit. -/
def parseNum : List Char → Option (Nat × List Char)
  | [] => none
  | c :: cs => if c.isDigit then some (parseNatAcc cs (c.toNat - 48)) else none

/-- Match an expected literal character sequence, returning the remainder. -/
def expectChars : List Char → List Char → Option (List Char)
  | [], input => some input
  | e :: es, input =>
      match input with
      | [] => none
      | c :: cs => if c = e then expectChars es cs else none

mutual
/-- Fuel-indexed parser for a JSON value (model of `json.loads`),
tolerant of insignificant whitespace. -/
def parseVal : Nat → List Char → Option (Json × List Char)
  | 0, _ => none
  | fuel + 1, input =>
      match skipWs input with
      | [] => none
      | c :: cs =>
          if c = 'n' then (expectChars ['u', 'l', 'l'] cs).map (fun rest => (.null, rest))
          else if c = 't' then (expectChars ['r', 'u', 'e'] cs).map (fun rest => (.bool true, rest))
          else if c = 'f' then
            (expectChars ['a', 'l', 's', 'e'] cs).map (fun rest => (.bool false, rest))
          else if c = '"' then
            (parseStrBody cs).map (fun (body, rest) => (.str (String.mk body), rest))
          else if c = '[' then
            match skipWs cs with
            | [] => none
            | c' :: cs' =>
                if c' = ']' then some (.arr [], cs')
                else (parseArrItems fuel (c' :: cs')).map (fun (vs, rest) => (.arr vs, rest))
          else if c = '{' then
            match skipWs cs with
            | [] => none
            | c' :: cs' =>
                if c' = '}' then some (.obj [], cs')
                else (parseObjItems fuel (c' :: cs')).map (fun (fs, rest) => (.obj fs, rest))
          else if c = '-' then (parseNum cs).map (fun (m, rest) => (.int (-(m : Int)), rest))
          else if c.isDigit then (parseNum (c :: cs)).map (fun (m, rest) => (.int (m : Int), rest))
          else none

/-- One or more array members, consuming the closing bracket. -/
def parseArrItems : Nat → List Char → Option (List Json × List Char)
  | 0, _ => none
  | fuel + 1, input =>
      match parseVal fuel input with
      | some (v, rest) =>
          (match skipWs rest with
           | [] => none
           | c :: rest' =>
               if c = ',' then (parseArrItems fuel rest').map (fun (vs, r) => (v :: vs, r))
               else if c = ']' then some ([v], rest')
               else none)
      | none => none

/-- One or more object members, consuming the closing brace. -/
def parseObjItems : Nat → List Char → Option (List (String × Json) × List Char)
  | 0, _ => none
  | fuel + 1, input =>
      match skipWs input with
      | [] => none
      | c :: cs =>
          if c = '"' then
            match parseStrBody cs with
            | some (key, rest) =>
                (match skipWs rest with
                 | [] => none
                 | c' :: rest' =>
                     if c' = ':' then
                       match parseVal fuel rest' with
                       | some (v, rest'') =>
                           (match skipWs rest'' with
                            | [] => none
                            | c'' :: r3 =>
                                if c'' = ',' then
                                  (parseObjItems fuel r3).map
                                    (fun (fs, r4) => ((String.mk key, v) :: fs, r4))
                                else if c'' = '}' then some ([(String.mk key, v)], r3)
                                else none)
                       | none => none
                     else none)
            | none => none
          else none
end

/-- Model of `json.loads`: parse one value, then require only whitespace
to remain. -/
def Json.parse (s : String) : Option Json :=
  match parseVal (s.data.length + 1) s.data with
  | some (v, rest) => if skipWs rest = [] then some v else none
  | none => none

/-! ## Round trip of the codec -/

/-- The remainder does not start with a decimal digit (so that number
parsing stops exactly at the serialized digits). -/
def noDigitHead : List Char → Bool
  | [] => true
  | c :: _ => !c.isDigit

mutual
/-- Fuel sufficient for `parseVal` to parse a serialization of `v`. -/
def jfuelVal : Json → Nat
  | .arr items => 1 + jfuelItems items
  | .obj fields => 1 + jfuelFields fields
  | _ => 1

/-- Fuel sufficient for `parseArrItems` on a serialization of `items`. -/
def jfuelItems : List Json → Nat
  | [] => 1
  | x :: xs => 1 + max (jfuelVal x) (jfuelItems xs)

/-- Fuel sufficient for `parseObjItems` on a serialization of `fields`. -/
def jfuelFields : List (String × Json) → Nat
  | [] => 1
  | f :: fs => 1 + max (jfuelVal f.2) (jfuelFields fs)
end

theorem skipWs_append (w rest : List Char) (hw : ∀ c ∈ w, isWsChar c = true) :
    skipWs (w ++ rest) = skipWs rest := by
  induction w with
  | nil => rfl
  | cons c cs ih =>
      simp only [List.cons_append, skipWs, hw c (List.mem_cons_self c cs), if_true]
      exact ih fun c hc => hw c (List.mem_cons_of_mem _ hc)

theorem skipWs_cons {c : Char} (cs : List Char) (hc : isWsChar c = false) :
    skipWs (c :: cs) = c :: cs := by
  simp [skipWs, hc]

theorem pad_ws (n : Nat) : ∀ c ∈ pad n, isWsChar c = true := by
  intro c hc
  have : c = ' ' := List.eq_of_mem_replicate hc
  subst this
  rfl

/-- Digit accumulation semantics of `parseNatAcc`. -/
def digitsVal (ds : List Char) (acc : Nat) : Nat :=
  ds.foldl (fun a c => a * 10 + (c.toNat - 48)) acc

theorem parseNatAcc_spec (ds : List Char) :
    ∀ (acc : Nat) (rest : List Char), (∀ c ∈ ds, c.isDigit = true) → noDigitHead rest = true →
      parseNatAcc (ds ++ rest) acc = (digitsVal ds acc, rest) := by
  induction ds with
  | nil =>
      intro acc rest _ hrest
      cases rest with
      | nil => rfl
      | cons c cs =>
          simp only [noDigitHead, Bool.not_eq_true'] at hrest
          simp [parseNatAcc, hrest, digitsVal]
  | cons c cs ih =>
      intro acc rest hds hrest
      simp only [List.cons_append, parseNatAcc, hds c (List.mem_cons_self c cs), if_true,
        List.append_eq]
      rw [ih _ rest (fun x hx => hds x (List.mem_cons_of_mem _ hx)) hrest]
      rfl

theorem digCh_isDigit {d : Nat} (hd : d < 10) : (digCh d).isDigit = true := by
  interval_cases d <;> decide

theorem digCh_toNat {d : Nat} (hd : d < 10) : (digCh d).toNat = 48 + d := by
  interval_cases d <;> decide

theorem natDigits_digits (n : Nat) : ∀ c ∈ natDigits n, c.isDigit = true := by
  induction n using Nat.strong_induction_on with
  | _ n ih =>
      match n with
      | 0 => simp [natDigits]
      | m + 1 =>
          rw [natDigits]
          intro c hc
          rcases List.mem_append.mp hc with h | h
          · exact ih _ (Nat.div_lt_self (Nat.succ_pos _) (by norm_num)) c h
          · have : c = digCh ((m + 1) % 10) := by simpa using h
            subst this
            exact digCh_isDigit (Nat.mod_lt _ (by norm_num))

theorem digitsVal_natDigits (n : Nat) :
    ∀ acc, digitsVal (natDigits n) acc = acc * 10 ^ (natDigits n).length + n := by
  induction n using Nat.strong_induction_on with
  | _ n ih =>
      match n with
      | 0 => intro acc; simp [natDigits, digitsVal]
      | m + 1 =>
          intro acc
          rw [natDigits, List.length_append]
          unfold digitsVal
          rw [List.foldl_append]
          have hq := ih ((m + 1) / 10) (Nat.div_lt_self (Nat.succ_pos _) (by norm_num)) acc
          unfold digitsVal at hq
          rw [hq]
          have h10 : (m + 1) % 10 < 10 := Nat.mod_lt _ (by norm_num)
          simp only [List.foldl_cons, List.foldl_nil, List.length_cons, List.length_nil,
            digCh_toNat h10]
          have hdm := Nat.div_add_mod (m + 1) 10
          rw [pow_succ]
          generalize (10 : Nat) ^ (natDigits ((m + 1) / 10)).length = K
          ring_nf
          omega

theorem natDigits_head (n : Nat) (hn : n ≠ 0) :
    ∃ d, d < 10 ∧ ∃ cs, natDigits n = digCh d :: cs := by
  induction n using Nat.strong_induction_on with
  | _ n ih =>
      match n with
      | 0 => exact absurd rfl hn
      | m + 1 =>
          rw [natDigits]
          by_cases h : (m + 1) / 10 = 0
          · rw [h]
            exact ⟨(m + 1) % 10, Nat.mod_lt _ (by norm_num), [], by simp [natDigits]⟩
          · obtain ⟨d, hd, cs, hcs⟩ :=
              ih _ (Nat.div_lt_self (Nat.succ_pos _) (by norm_num)) h
            exact ⟨d, hd, cs ++ [digCh ((m + 1) % 10)], by rw [hcs]; simp⟩

theorem parseNum_natRepr (m : Nat) (rest : List Char) (hrest : noDigitHead rest = true) :
    parseNum (natRepr m ++ rest) = some (m, rest) := by
  by_cases hm : m = 0
  · subst hm
    have h0 := parseNatAcc_spec [] 0 rest (by simp) hrest
    simp only [List.nil_append, digitsVal, List.foldl_nil] at h0
    simp [natRepr, parseNum, h0]
  · obtain ⟨d, hd, cs, hcs⟩ := natDigits_head m hm
    have hall := natDigits_digits m
    rw [hcs] at hall
    have hacc := parseNatAcc_spec cs ((digCh d).toNat - 48) rest
      (fun c hc => hall c (List.mem_cons_of_mem _ hc)) hrest
    have hval := digitsVal_natDigits m 0
    rw [hcs] at hval
    simp only [digitsVal, List.foldl_cons, Nat.zero_mul, Nat.zero_add, List.length_cons,
      zero_mul, zero_add] at hval
    simp only [natRepr, hm, if_false, hcs, List.cons_append, parseNum,
      digCh_isDigit hd, if_true]
    rw [hacc]
    simp only [digitsVal] at hval ⊢
    rw [hval]

theorem hexVal_hexDigit {d : Nat} (hd : d < 16) : hexVal (hexDigit d) = some d := by
  interval_cases d <;> decide

theorem parseStrBody_escList (s : List Char) :
    ∀ rest, parseStrBody (escList s ++ '"' :: rest) = some (s, rest) := by
  induction s with
  | nil =>
      intro rest
      rw [escList, List.nil_append, parseStrBody.eq_def]
      simp
  | cons c cs ih =>
      intro rest
      simp only [escList, List.append_assoc]
      by_cases h1 : c = '"'
      · subst h1
        rw [show escChar '"' = ['\\', '"'] from rfl]
        simp only [List.cons_append, List.nil_append]
        rw [parseStrBody.eq_def]
        simp +decide [unescChar, ih rest]
      · by_cases h2 : c = '\\'
        · subst h2
          rw [show escChar '\\' = ['\\', '\\'] from rfl]
          simp only [List.cons_append, List.nil_append]
          rw [parseStrBody.eq_def]
          simp +decide [unescChar, ih rest]
        · by_cases h3 : c = '\n'
          · subst h3
            rw [show escChar '\n' = ['\\', 'n'] from rfl]
            simp only [List.cons_append, List.nil_append]
            rw [parseStrBody.eq_def]
            simp +decide [unescChar, ih rest]
          · by_cases h4 : c = '\t'
            · subst h4
              rw [show escChar '\t' = ['\\', 't'] from rfl]
              simp only [List.cons_append, List.nil_append]
              rw [parseStrBody.eq_def]
              simp +decide [unescChar, ih rest]
            · by_cases h5 : c = '\r'
              · subst h5
                rw [show escChar '\r' = ['\\', 'r'] from rfl]
                simp only [List.cons_append, List.nil_append]
                rw [parseStrBody.eq_def]
                simp +decide [unescChar, ih rest]
              · by_cases h6 : c.toNat = 8
                · have hc : c = Char.ofNat 8 := by rw [← h6, Char.ofNat_toNat]
                  subst hc
                  rw [show escChar (Char.ofNat 8) = ['\\', 'b'] from rfl]
                  simp only [List.cons_append, List.nil_append]
                  rw [parseStrBody.eq_def]
                  simp +decide [unescChar, ih rest]
                · by_cases h7 : c.toNat = 12
                  · have hc : c = Char.ofNat 12 := by rw [← h7, Char.ofNat_toNat]
                    subst hc
                    rw [show escChar (Char.ofNat 12) = ['\\', 'f'] from rfl]
                    simp only [List.cons_append, List.nil_append]
                    rw [parseStrBody.eq_def]
                    simp +decide [unescChar, ih rest]
                  · by_cases h8 : c.toNat < 32
                    · have hhi : c.toNat / 16 < 16 := by omega
                      have hlo : c.toNat % 16 < 16 := by omega
                      have h0 : hexVal '0' = some 0 := by decide
                      have hofn : Char.ofNat (c.toNat / 16 * 16 + c.toNat % 16) = c := by
                        have he : c.toNat / 16 * 16 + c.toNat % 16 = c.toNat := by omega
                        rw [he, Char.ofNat_toNat]
                      simp only [escChar, h1, h2, h3, h4, h5, h6, h7, h8, if_true, if_false,
                        List.cons_append, List.nil_append]
                      rw [parseStrBody.eq_def]
                      simp +decide [h0, hexVal_hexDigit hhi, hexVal_hexDigit hlo, ih rest,
                        hofn]
                    · simp only [escChar, h1, h2, h3, h4, h5, h6, h7, h8, if_false,
                        List.cons_append, List.nil_append]
                      rw [parseStrBody.eq_def]
                      simp +decide [h1, h2, ih rest]

theorem ws_not_digit {c : Char} (hc : isWsChar c = true) : c.isDigit = false := by
  simp only [isWsChar, Bool.or_eq_true, decide_eq_true_eq] at hc
  rcases hc with ((h | h) | h) | h <;> subst h <;> decide

theorem noDigitHead_ws (wc : List Char) (hwc : ∀ c ∈ wc, isWsChar c = true)
    {c : Char} (hc : c.isDigit = false) (t : List Char) :
    noDigitHead (wc ++ c :: t) = true := by
  cases wc with
  | nil => simp [noDigitHead, hc]
  | cons a as => simp [noDigitHead, ws_not_digit (hwc a (List.mem_cons_self a as))]

theorem skipWs_ws_cons (w : List Char) (hw : ∀ c ∈ w, isWsChar c = true)
    {c : Char} (hc : isWsChar c = false) (t : List Char) :
    skipWs (w ++ c :: t) = c :: t := by
  rw [skipWs_append w _ hw, skipWs_cons _ hc]

theorem digCh_facts {d : Nat} (hd : d < 10) :
    isWsChar (digCh d) = false ∧ (digCh d).isDigit = true ∧ digCh d ≠ ']'
      ∧ digCh d ≠ 'n' ∧ digCh d ≠ 't' ∧ digCh d ≠ 'f' ∧ digCh d ≠ '"'
      ∧ digCh d ≠ '[' ∧ digCh d ≠ '{' ∧ digCh d ≠ '-' := by
  interval_cases d <;> decide

theorem string_mk_data (s : String) : String.mk s.data = s := by cases s; rfl

theorem serVal_head (d : Nat) (v : Json) :
    ∃ c t, serVal d v = c :: t ∧ isWsChar c = false ∧ c ≠ ']' := by
  cases v with
  | null => exact ⟨'n', _, rfl, rfl, by decide⟩
  | bool b =>
      cases b
      · exact ⟨'f', _, rfl, rfl, by decide⟩
      · exact ⟨'t', _, rfl, rfl, by decide⟩
  | str s => exact ⟨'"', _, rfl, rfl, by decide⟩
  | int n =>
      by_cases hn : n < 0
      · exact ⟨'-', natRepr n.natAbs, by simp [serVal, hn], by decide, by decide⟩
      · by_cases h0 : n.natAbs = 0
        · exact ⟨'0', [], by simp [serVal, hn, natRepr, h0], by decide, by decide⟩
        · obtain ⟨d0, hd0, cs, hcs⟩ := natDigits_head n.natAbs h0
          obtain ⟨hws, _, hrb, _⟩ := digCh_facts hd0
          exact ⟨digCh d0, cs, by simp [serVal, hn, natRepr, h0, hcs], hws, hrb⟩
  | arr items =>
      cases items with
      | nil => exact ⟨'[', _, rfl, by decide, by decide⟩
      | cons x xs => exact ⟨'[', _, rfl, by decide, by decide⟩
  | obj fields =>
      cases fields with
      | nil => exact ⟨'{', _, rfl, by decide, by decide⟩
      | cons f fs => exact ⟨'{', _, rfl, by decide, by decide⟩

theorem serItems_eq_append (d : Nat) (x : Json) (xs : List Json) :
    ∃ suffix, serItems d (x :: xs) = serVal d x ++ suffix := by
  cases xs with
  | nil => exact ⟨[], by simp [serItems]⟩
  | cons y ys => exact ⟨',' :: '\n' :: (pad d ++ serItems d (y :: ys)), by simp [serItems]⟩

theorem nlPad_ws (n : Nat) : ∀ c ∈ '\n' :: pad n, isWsChar c = true := by
  intro c hc
  rcases List.mem_cons.mp hc with h | h
  · subst h; decide
  · exact pad_ws n c h

theorem serFields_head (d : Nat) (k : String) (v : Json) (fs : List (String × Json)) :
    ∃ t, serFields d ((k, v) :: fs) = '"' :: t := by
  cases fs with
  | nil =>
      exact ⟨escList k.data ++ '"' :: (':' :: ' ' :: serVal d v),
        by simp [serFields, quoteStr]⟩
  | cons f2 gs =>
      exact ⟨escList k.data ++ '"' :: (':' :: ' ' :: (serVal d v
        ++ ',' :: '\n' :: (pad d ++ serFields d (f2 :: gs)))),
        by simp [serFields, quoteStr]⟩

theorem json_sizeOf_pos (v : Json) : 1 ≤ sizeOf v := by
  cases v <;> simp_arith

theorem list_pair_sizeOf_pos (fs : List (String × Json)) : 1 ≤ sizeOf fs := by
  cases fs <;> simp_arith

theorem parse_ser_bound (N : Nat) :
    (∀ (v : Json) (fuel d : Nat) (w rest : List Char), sizeOf v ≤ N →
      jfuelVal v ≤ fuel → (∀ c ∈ w, isWsChar c = true) → noDigitHead rest = true →
      parseVal fuel (w ++ (serVal d v ++ rest)) = some (v, rest)) ∧
    (∀ (x : Json) (xs : List Json) (fuel d : Nat) (w wc rest : List Char),
      sizeOf x + sizeOf xs ≤ N →
      jfuelItems (x :: xs) ≤ fuel → (∀ c ∈ w, isWsChar c = true) →
      (∀ c ∈ wc, isWsChar c = true) →
      parseArrItems fuel (w ++ (serItems d (x :: xs) ++ (wc ++ (']' :: rest))))
        = some (x :: xs, rest)) ∧
    (∀ (k : String) (v : Json) (fs : List (String × Json)) (fuel d : Nat)
      (w wc rest : List Char), sizeOf v + sizeOf fs ≤ N →
      jfuelFields ((k, v) :: fs) ≤ fuel → (∀ c ∈ w, isWsChar c = true) →
      (∀ c ∈ wc, isWsChar c = true) →
      parseObjItems fuel (w ++ (serFields d ((k, v) :: fs) ++ (wc ++ ('}' :: rest))))
        = some ((k, v) :: fs, rest)) := by
  induction N with
  | zero =>
      exact ⟨fun v _ _ _ _ hsz => absurd hsz (by have := json_sizeOf_pos v; omega),
        fun x xs _ _ _ _ _ hsz => absurd hsz (by have := json_sizeOf_pos x; omega),
        fun k v fs _ _ _ _ _ hsz => absurd hsz (by have := json_sizeOf_pos v; omega)⟩
  | succ N ih =>
  obtain ⟨ihV, ihA, ihO⟩ := ih
  refine ⟨?_, ?_, ?_⟩
  · intro v fuel d w rest hsz hfuel hw hrest
    cases fuel with
  | zero => exact absurd hfuel (by cases v <;> simp [jfuelVal])
  | succ g =>
    cases v with
    | null =>
        rw [show serVal d Json.null = ['n', 'u', 'l', 'l'] from rfl]
        simp only [parseVal, List.cons_append, List.nil_append]
        rw [skipWs_ws_cons w hw (by decide)]
        simp +decide [expectChars]
    | bool b =>
        cases b with
        | true =>
            rw [show serVal d (Json.bool true) = ['t', 'r', 'u', 'e'] from rfl]
            simp only [parseVal, List.cons_append, List.nil_append]
            rw [skipWs_ws_cons w hw (by decide)]
            simp +decide [expectChars]
        | false =>
            rw [show serVal d (Json.bool false) = ['f', 'a', 'l', 's', 'e'] from rfl]
            simp only [parseVal, List.cons_append, List.nil_append]
            rw [skipWs_ws_cons w hw (by decide)]
            simp +decide [expectChars]
    | str s =>
        rw [show serVal d (Json.str s) = '"' :: (escList s.data ++ ['"']) from rfl]
        simp only [parseVal, List.cons_append, List.nil_append]
        rw [skipWs_ws_cons w hw (by decide),
          show (escList s.data ++ ['"']) ++ rest = escList s.data ++ '"' :: rest by simp]
        simp +decide [parseStrBody_escList s.data rest, string_mk_data]
    | int n =>
        by_cases hn : n < 0
        · rw [show serVal d (Json.int n) = '-' :: natRepr n.natAbs from by simp [serVal, hn]]
          simp only [parseVal, List.cons_append, List.nil_append]
          rw [skipWs_ws_cons w hw (by decide)]
          simp +decide [parseNum_natRepr n.natAbs rest hrest]
          rw [abs_of_neg hn, neg_neg]
        · rw [show serVal d (Json.int n) = natRepr n.natAbs from by simp [serVal, hn]]
          by_cases h0 : n.natAbs = 0
          · rw [h0, show natRepr 0 = ['0'] from rfl]
            simp only [parseVal, List.cons_append, List.nil_append]
            rw [skipWs_ws_cons w hw (by decide)]
            have hp := parseNum_natRepr 0 rest hrest
            rw [show natRepr 0 = ['0'] from rfl] at hp
            simp only [List.cons_append, List.nil_append] at hp
            simp +decide [hp]
            omega
          · obtain ⟨d0, hd0, cs, hcs⟩ := natDigits_head n.natAbs h0
            obtain ⟨hws, hdig, hrb, hn1, ht1, hf1, hq1, hlb, hcb, hmb⟩ := digCh_facts hd0
            rw [show natRepr n.natAbs = natDigits n.natAbs from by simp [natRepr, h0], hcs]
            simp only [parseVal, List.cons_append, List.nil_append]
            rw [skipWs_ws_cons w hw hws]
            dsimp only
            rw [if_neg hn1, if_neg ht1, if_neg hf1, if_neg hq1, if_neg hlb, if_neg hcb,
              if_neg hmb, if_pos hdig]
            have hp := parseNum_natRepr n.natAbs rest hrest
            rw [show natRepr n.natAbs = natDigits n.natAbs from by simp [natRepr, h0], hcs] at hp
            simp only [List.cons_append] at hp
            rw [hp]
            simp
            omega
    | arr items =>
        cases items with
        | nil =>
            rw [show serVal d (Json.arr []) = ['[', ']'] from rfl]
            simp only [parseVal, List.cons_append, List.nil_append]
            rw [skipWs_ws_cons w hw (by decide)]
            simp +decide [skipWs_cons _ (show isWsChar ']' = false by decide)]
        | cons x xs =>
            have hf : jfuelItems (x :: xs) ≤ g := by
              simp only [jfuelVal] at hfuel; omega
            obtain ⟨suf, hsuf⟩ := serItems_eq_append (d + 2) x xs
            obtain ⟨c0, t0, hct, hcw, hcb⟩ := serVal_head (d + 2) x
            have hrec := ihA x xs g (d + 2) [] ('\n' :: pad d) rest
              (by simp at hsz; omega) hf (by simp) (nlPad_ws d)
            rw [show serVal d (Json.arr (x :: xs)) = '[' :: '\n' :: (pad (d + 2)
              ++ serItems (d + 2) (x :: xs) ++ '\n' :: (pad d ++ [']'])) from rfl]
            simp only [parseVal, List.cons_append, List.nil_append]
            rw [skipWs_ws_cons w hw (by decide)]
            dsimp only
            rw [hsuf, hct] at hrec ⊢
            simp only [List.nil_append, List.cons_append, List.append_assoc] at hrec ⊢
            rw [show skipWs ('\n' :: (pad (d + 2) ++ (c0 :: (t0 ++ (suf
                ++ '\n' :: (pad d ++ ']' :: rest))))))
              = c0 :: (t0 ++ (suf ++ '\n' :: (pad d ++ ']' :: rest))) from by
                rw [show ('\n' :: (pad (d + 2) ++ (c0 :: (t0 ++ (suf
                    ++ '\n' :: (pad d ++ ']' :: rest))))))
                  = ('\n' :: pad (d + 2)) ++ (c0 :: (t0 ++ (suf
                    ++ '\n' :: (pad d ++ ']' :: rest)))) from by simp]
                exact skipWs_ws_cons _ (nlPad_ws _) hcw _]
            dsimp only
            rw [if_neg hcb, hrec]
            rfl
    | obj fields =>
        cases fields with
        | nil =>
            rw [show serVal d (Json.obj []) = ['{', '}'] from rfl]
            simp only [parseVal, List.cons_append, List.nil_append]
            rw [skipWs_ws_cons w hw (by decide)]
            simp +decide [skipWs_cons _ (show isWsChar '}' = false by decide)]
        | cons f fs =>
            obtain ⟨k, v⟩ := f
            have hf : jfuelFields ((k, v) :: fs) ≤ g := by
              simp only [jfuelVal] at hfuel; omega
            obtain ⟨t, ht⟩ := serFields_head (d + 2) k v fs
            have hrec := ihO k v fs g (d + 2) [] ('\n' :: pad d) rest
              (by simp at hsz; omega) hf (by simp) (nlPad_ws d)
            rw [show serVal d (Json.obj ((k, v) :: fs)) = '{' :: '\n' :: (pad (d + 2)
              ++ serFields (d + 2) ((k, v) :: fs) ++ '\n' :: (pad d ++ ['}'])) from rfl]
            simp only [parseVal, List.cons_append, List.nil_append]
            rw [skipWs_ws_cons w hw (by decide)]
            dsimp only
            rw [ht] at hrec ⊢
            simp only [List.nil_append, List.cons_append, List.append_assoc] at hrec ⊢
            rw [show skipWs ('\n' :: (pad (d + 2) ++ ('"' :: (t
                ++ '\n' :: (pad d ++ '}' :: rest)))))
              = '"' :: (t ++ '\n' :: (pad d ++ '}' :: rest)) from by
                rw [show ('\n' :: (pad (d + 2) ++ ('"' :: (t
                    ++ '\n' :: (pad d ++ '}' :: rest)))))
                  = ('\n' :: pad (d + 2)) ++ ('"' :: (t
                    ++ '\n' :: (pad d ++ '}' :: rest))) from by simp]
                exact skipWs_ws_cons _ (nlPad_ws _) (by decide) _]
            dsimp only
            rw [if_neg (by decide), hrec]
            rfl
  · intro x xs fuel d w wc rest hsz hfuel hw hwc
    cases fuel with
  | zero => exact absurd hfuel (by simp [jfuelItems])
  | succ g =>
    have hfx : jfuelVal x ≤ g := by simp only [jfuelItems] at hfuel; omega
    cases xs with
    | nil =>
        rw [show serItems d [x] = serVal d x from by simp [serItems]]
        simp only [parseArrItems]
        rw [ihV x g d w (wc ++ (']' :: rest)) (by simp at hsz; omega) hfx hw
          (noDigitHead_ws wc hwc (by decide) rest)]
        dsimp only
        rw [skipWs_ws_cons wc hwc (by decide)]
        simp +decide
    | cons y ys =>
        have hfy : jfuelItems (y :: ys) ≤ g := by
          simp only [jfuelItems] at hfuel ⊢; omega
        rw [show serItems d (x :: y :: ys)
            = serVal d x ++ ',' :: '\n' :: (pad d ++ serItems d (y :: ys)) from by
          simp [serItems]]
        simp only [parseArrItems, List.cons_append, List.append_assoc]
        rw [ihV x g d w
          (',' :: '\n' :: (pad d ++ (serItems d (y :: ys) ++ (wc ++ (']' :: rest)))))
          (by have := json_sizeOf_pos y; simp at hsz; omega)
          hfx hw (by simp +decide [noDigitHead])]
        dsimp only
        rw [skipWs_cons _ (by decide)]
        dsimp only
        rw [if_pos rfl]
        have hrec := ihA y ys g d ('\n' :: pad d) wc rest
          (by have := json_sizeOf_pos x; simp at hsz; omega) hfy (nlPad_ws d) hwc
        simp only [List.cons_append, List.append_assoc, List.nil_append] at hrec
        rw [hrec]
        rfl
  · intro k v fs fuel d w wc rest hsz hfuel hw hwc
    cases fuel with
  | zero => exact absurd hfuel (by simp [jfuelFields])
  | succ g =>
    have hfv : jfuelVal v ≤ g := by simp only [jfuelFields] at hfuel; omega
    cases fs with
    | nil =>
        rw [show serFields d [(k, v)]
            = '"' :: (escList k.data ++ '"' :: (':' :: ' ' :: (serVal d v
              ++ ([] : List Char)))) from by simp [serFields, quoteStr]]
        simp only [parseObjItems, List.cons_append, List.nil_append, List.append_nil,
          List.append_assoc]
        rw [skipWs_ws_cons w hw (by decide)]
        dsimp only
        rw [if_pos rfl]
        rw [show (escList k.data ++ '"' :: (':' :: ' ' :: (serVal d v
            ++ (wc ++ '}' :: rest))))
          = escList k.data ++ '"' :: (':' :: ' ' :: (serVal d v
            ++ (wc ++ '}' :: rest))) from rfl]
        rw [parseStrBody_escList k.data]
        dsimp only
        rw [skipWs_cons _ (by decide)]
        dsimp only
        rw [if_pos rfl]
        have hv2 := ihV v g d [' '] (wc ++ ('}' :: rest))
          (by simp at hsz; omega) hfv
          (by intro c hc; simp at hc; subst hc; decide)
          (noDigitHead_ws wc hwc (by decide) rest)
        simp only [List.singleton_append, List.cons_append, List.nil_append] at hv2
        rw [hv2]
        dsimp only
        rw [skipWs_ws_cons wc hwc (by decide)]
        dsimp only
        rw [if_neg (by decide), if_pos rfl]
    | cons f2 gs =>
        obtain ⟨k2, v2⟩ := f2
        have hff : jfuelFields ((k2, v2) :: gs) ≤ g := by
          simp only [jfuelFields] at hfuel ⊢; omega
        rw [show serFields d ((k, v) :: (k2, v2) :: gs)
            = '"' :: (escList k.data ++ '"' :: (':' :: ' ' :: (serVal d v
              ++ (',' :: '\n' :: (pad d ++ serFields d ((k2, v2) :: gs)))))) from by
          simp [serFields, quoteStr]]
        simp only [parseObjItems, List.cons_append, List.nil_append, List.append_assoc]
        rw [skipWs_ws_cons w hw (by decide)]
        dsimp only
        rw [if_pos rfl]
        rw [parseStrBody_escList k.data]
        dsimp only
        rw [skipWs_cons _ (by decide)]
        dsimp only
        rw [if_pos rfl]
        have hv2 := ihV v g d [' ']
          (',' :: '\n' :: (pad d ++ (serFields d ((k2, v2) :: gs) ++ (wc ++ ('}' :: rest)))))
          (by have := list_pair_sizeOf_pos ((k2, v2) :: gs); omega)
          hfv (by intro c hc; simp at hc; subst hc; decide)
          (by simp +decide [noDigitHead])
        simp only [List.singleton_append, List.cons_append, List.nil_append,
          List.append_assoc] at hv2
        rw [hv2]
        dsimp only
        rw [skipWs_cons _ (by decide)]
        dsimp only
        rw [if_pos rfl]
        have hrec := ihO k2 v2 gs g d ('\n' :: pad d) wc rest
          (by have := json_sizeOf_pos v; simp at hsz; omega) hff (nlPad_ws d) hwc
        simp only [List.cons_append, List.append_assoc, List.nil_append] at hrec
        rw [hrec]
        simp [string_mk_data]


theorem parseVal_serVal (v : Json) (fuel d : Nat) (w rest : List Char)
    (hfuel : jfuelVal v ≤ fuel) (hw : ∀ c ∈ w, isWsChar c = true)
    (hrest : noDigitHead rest = true) :
    parseVal fuel (w ++ (serVal d v ++ rest)) = some (v, rest) :=
  (parse_ser_bound (sizeOf v)).1 v fuel d w rest le_rfl hfuel hw hrest

theorem jfuel_bound (N : Nat) :
    (∀ v : Json, sizeOf v ≤ N → ∀ d, jfuelVal v ≤ (serVal d v).length + 1) ∧
    (∀ (x : Json) (xs : List Json), sizeOf x + sizeOf xs ≤ N →
      ∀ d, jfuelItems (x :: xs) ≤ (serItems d (x :: xs)).length + 2) ∧
    (∀ (k : String) (v : Json) (fs : List (String × Json)), sizeOf v + sizeOf fs ≤ N →
      ∀ d, jfuelFields ((k, v) :: fs) ≤ (serFields d ((k, v) :: fs)).length + 2) := by
  induction N with
  | zero =>
      exact ⟨fun v hsz => absurd hsz (by have := json_sizeOf_pos v; omega),
        fun x xs hsz => absurd hsz (by have := json_sizeOf_pos x; omega),
        fun k v fs hsz => absurd hsz (by have := json_sizeOf_pos v; omega)⟩
  | succ N ih =>
      obtain ⟨ihA, ihB, ihC⟩ := ih
      refine ⟨?_, ?_, ?_⟩
      · intro v hsz d
        cases v with
        | null => simp [jfuelVal]
        | bool b => cases b <;> simp [jfuelVal]
        | str s => simp [jfuelVal]
        | int n => simp [jfuelVal]
        | arr items =>
            cases items with
            | nil => simp [jfuelVal, jfuelItems, serVal]
            | cons x xs =>
                have hb := ihB x xs (by simp at hsz; omega) (d + 2)
                simp only [jfuelVal, serVal, List.length_append, List.length_cons]
                omega
        | obj fields =>
            cases fields with
            | nil => simp [jfuelVal, jfuelFields, serVal]
            | cons f fs =>
                obtain ⟨k, v⟩ := f
                have hc := ihC k v fs (by simp at hsz; omega) (d + 2)
                simp only [jfuelVal, serVal, List.length_append, List.length_cons]
                omega
      · intro x xs hsz d
        cases xs with
        | nil =>
            have ha := ihA x (by simp at hsz; omega) d
            rw [show serItems d [x] = serVal d x from by simp [serItems]]
            simp only [jfuelItems]
            omega
        | cons y ys =>
            have ha := ihA x (by have := json_sizeOf_pos y; simp at hsz; omega) d
            have hb := ihB y ys (by have := json_sizeOf_pos x; simp at hsz; omega) d
            rw [show serItems d (x :: y :: ys)
                = serVal d x ++ ',' :: '\n' :: (pad d ++ serItems d (y :: ys)) from by
              simp [serItems]]
            simp only [jfuelItems] at hb ⊢
            simp only [List.length_append, List.length_cons]
            omega
      · intro k v fs hsz d
        cases fs with
        | nil =>
            have ha := ihA v (by simp at hsz; omega) d
            rw [show serFields d [(k, v)] = quoteStr k ++ ':' :: ' ' :: serVal d v from by
              simp [serFields]]
            simp only [jfuelFields, List.length_append, List.length_cons]
            omega
        | cons f2 gs =>
            obtain ⟨k2, v2⟩ := f2
            have ha := ihA v (by have := json_sizeOf_pos v2; simp at hsz; omega) d
            have hc := ihC k2 v2 gs (by have := json_sizeOf_pos v; simp at hsz; omega) d
            rw [show serFields d ((k, v) :: (k2, v2) :: gs)
                = quoteStr k ++ ':' :: ' ' :: (serVal d v
                  ++ ',' :: '\n' :: (pad d ++ serFields d ((k2, v2) :: gs))) from by
              simp [serFields]]
            simp only [jfuelFields] at hc ⊢
            simp only [List.length_append, List.length_cons]
            omega

/-- Round trip of the modelled codec: `json.loads(json.dumps(v, indent=2))`
recovers `v` exactly. -/
theorem parse_dumps (v : Json) : Json.parse (Json.dumps v) = some v := by
  unfold Json.parse Json.dumps
  have hb := (jfuel_bound (sizeOf v)).1 v le_rfl 0
  have h := parseVal_serVal v ((serVal 0 v).length + 1) 0 [] [] hb (by simp) rfl
  simp only [List.nil_append, List.append_nil] at h
  rw [show (String.mk (serVal 0 v)).data = serVal 0 v from rfl]
  rw [h]
  rfl

/-! ## The fixed data tables of the script -/

/-- A demo preset (the values of the `DEMO_SCENARIOS` dict). -/
structure DemoScenario where
  business_type : String
  current_rule : String
  scenario : String
  deriving Repr, DecidableEq

/-- The five fixed demo presets (lines 25-51), verbatim. -/
def DEMO_SCENARIOS : List (String × DemoScenario) := [
  ("Software Agency Crisis",
    { business_type := "High-end Software Agency",
      current_rule := "All client change requests must be approved by both the Founder (Revenue Protector) and Lead Architect (Quality Gatekeeper).",
      scenario := "A major client threatens to walk away if a high-risk/high-reward feature is not delivered in 7 days. The feature requires bypassing standard QA protocols." }),
  ("Logistics Company Fuel Crisis",
    { business_type := "Mid-sized Regional Logistics/Trucking Company",
      current_rule := "Strict driver safety policy: Mandatory 10-hour rest break for every 14 hours on duty. No exceptions.",
      scenario := "Fuel prices spike 40%. Major client demands \x27Guaranteed 24-Hour Delivery\x27 with strict penalty clauses. Drivers are pressured to skip rest breaks." }),
  ("Healthcare Staffing Shortage",
    { business_type := "Regional Hospital Network",
      current_rule := "Mandatory nurse-to-patient ratios (1:4 in general care, 1:2 in ICU). No nurse can work more than 12-hour shifts.",
      scenario := "Flu outbreak causes 30% staff shortage. Emergency room wait times hit 8 hours. Administration considers suspending ratio requirements." }),
  ("E-commerce Black Friday",
    { business_type := "Fast-growing E-commerce Startup",
      current_rule := "All marketing campaigns must be approved by Legal team for compliance (data privacy, accessibility, claims verification).",
      scenario := "Black Friday is in 48 hours. Marketing team has explosive viral campaign ready but Legal hasn\x27t approved it. Competitors are already running similar campaigns." }),
  ("Manufacturing Quality Crisis",
    { business_type := "Electronics Manufacturing Plant",
      current_rule := "Zero-defect policy: Any product with defects must be scrapped. Quality inspectors have authority to halt production lines.",
      scenario := "Major retailer threatens to cancel $10M order if shipment is delayed by even 1 day. Current defect rate is 3% (normally 0.5%). Production manager wants to ship anyway." })]

/-- The `SPECTRUM_SCHEMA` dict (lines 57-102). -/
def SPECTRUM_SCHEMA : Json :=
  .obj [
    ("type", .str "object"),
    ("properties", .obj [
      ("critical_conflict", .obj [
        ("type", .str "object"),
        ("properties", .obj [
          ("psychological_prior", .obj [
            ("type", .str "object"),
            ("properties", .obj [
              ("name", .obj [("type", .str "string")]),
              ("scale_description", .obj [("type", .str "string")])]),
            ("required", .arr [.str "name", .str "scale_description"]),
            ("additionalProperties", .bool false)]),
          ("operational_constraint", .obj [
            ("type", .str "object"),
            ("properties", .obj [
              ("name", .obj [("type", .str "string")]),
              ("description", .obj [("type", .str "string")])]),
            ("required", .arr [.str "name", .str "description"]),
            ("additionalProperties", .bool false)])]),
        ("required", .arr [.str "psychological_prior", .str "operational_constraint"]),
        ("additionalProperties", .bool false)]),
      ("agent_spectrum", .obj [
        ("type", .str "array"),
        ("items", .obj [
          ("type", .str "object"),
          ("properties", .obj [
            ("agent_id", .obj [("type", .str "string")]),
            ("prior_score", .obj [("type", .str "integer")]),
            ("persona", .obj [("type", .str "string")]),
            ("description", .obj [("type", .str "string")])]),
          ("required", .arr [.str "agent_id", .str "prior_score", .str "persona",
            .str "description"]),
          ("additionalProperties", .bool false)])])]),
    ("required", .arr [.str "critical_conflict", .str "agent_spectrum"]),
    ("additionalProperties", .bool false)]

/-- The `SIMULATION_SCHEMA` dict (lines 104-134). -/
def SIMULATION_SCHEMA : Json :=
  .obj [
    ("type", .str "object"),
    ("properties", .obj [
      ("timeline", .obj [
        ("type", .str "array"),
        ("items", .obj [
          ("type", .str "object"),
          ("properties", .obj [
            ("time_step", .obj [("type", .str "string")]),
            ("agent_activity", .obj [("type", .str "string")]),
            ("approval_status", .obj [("type", .str "string")]),
            ("system_risk_score", .obj [("type", .str "integer")]),
            ("narrative_outcome", .obj [("type", .str "string")])]),
          ("required", .arr [.str "time_step", .str "agent_activity",
            .str "approval_status", .str "system_risk_score", .str "narrative_outcome"]),
          ("additionalProperties", .bool false)])]),
      ("tipping_point", .obj [
        ("type", .str "object"),
        ("properties", .obj [
          ("day", .obj [("type", .str "string")]),
          ("description", .obj [("type", .str "string")])]),
        ("required", .arr [.str "day", .str "description"]),
        ("additionalProperties", .bool false)])]),
    ("required", .arr [.str "timeline", .str "tipping_point"]),
    ("additionalProperties", .bool false)]

/-- The `ANALYSIS_SCHEMA` dict (lines 136-175). -/
def ANALYSIS_SCHEMA : Json :=
  .obj [
    ("type", .str "object"),
    ("properties", .obj [
      ("structural_patterns", .obj [
        ("type", .str "object"),
        ("properties", .obj [
          ("fracture", .obj [("type", .str "string")]),
          ("tipping_point", .obj [("type", .str "string")]),
          ("mechanism_of_failure", .obj [("type", .str "string")])]),
        ("required", .arr [.str "fracture", .str "tipping_point",
          .str "mechanism_of_failure"]),
        ("additionalProperties", .bool false)]),
      ("diagnosis", .obj [
        ("type", .str "object"),
        ("properties", .obj [
          ("mechanism_failure", .obj [("type", .str "string")]),
          ("driver_failure", .obj [("type", .str "string")])]),
        ("required", .arr [.str "mechanism_failure", .str "driver_failure"]),
        ("additionalProperties", .bool false)]),
      ("proposed_solutions", .obj [
        ("type", .str "array"),
        ("items", .obj [
          ("type", .str "object"),
          ("properties", .obj [
            ("solution_name", .obj [("type", .str "string")]),
            ("description", .obj [("type", .str "string")]),
            ("implementation", .obj [("type", .str "string")]),
            ("prescriptive_action_plan", .obj [("type", .str "string")])]),
          ("required", .arr [.str "solution_name", .str "description",
            .str "implementation", .str "prescriptive_action_plan"]),
          ("additionalProperties", .bool false)])])]),
    ("required", .arr [.str "structural_patterns", .str "diagnosis",
      .str "proposed_solutions"]),
    ("additionalProperties", .bool false)]

/-! ## The inference gateway `call_cerebras` (lines 177-195)

The external `client.chat.completions.create(...)` call and the attribute
chain `completion.choices[0].message.content` are abstracted by an
`ApiOutcome`: either some exception was raised (transport, authentication,
SDK error, missing choice), or a reply content string was obtained.  The
function forwards `messages`, the schema and the schema name to the
external API; what comes back is not a function of them, so they do not
constrain the outcome. -/

/-- A chat message (the dicts in the `messages` lists). -/
structure Message where
  role : String
  content : String
  deriving Repr, DecidableEq

/-- Abstract outcome of the external API call made inside the `try` block. -/
inductive ApiOutcome where
  | raise (msg : String) : ApiOutcome
  | content (s : String) : ApiOutcome
  deriving Repr, DecidableEq

/-- The exceptions that can escape the `try` body: an exception from the
SDK call / response access, or `json.JSONDecodeError` from `json.loads`. -/
inductive PyError where
  | apiError (msg : String) : PyError
  | jsonDecodeError : PyError
  deriving Repr, DecidableEq

/-- The body of the `try` block in `call_cerebras`: make the call, then
`json.loads(completion.choices[0].message.content)`. -/
def call_cerebras_body (outcome : ApiOutcome) : Except PyError Json :=
  match outcome with
  | .raise msg => .error (.apiError msg)
  | .content s =>
      match Json.parse s with
      | some v => .ok v
      | none => .error .jsonDecodeError

/-- `call_cerebras`: the `try`/`except Exception` wrapper returns the
parsed JSON on success and, after `st.error(...)`, `None` on any
exception. -/
def call_cerebras (messages : List Message) (schema : Json) (schema_name : String)
    (outcome : ApiOutcome) : Option Json :=
  match call_cerebras_body outcome with
  | .ok v => some v
  | .error _ => none

/-! ## Session state (lines 200-211) and the per-run transition -/

/-- The `st.session_state` fields used by the script, with their
initialization values: `phase = 1`, `business_context = {}`, the three
result slots and the pending demo selection `None`. -/
structure SessionState where
  phase : Nat
  business_context : Json
  spectrum_data : Option Json
  simulation_data : Option Json
  analysis_data : Option Json
  selected_demo : Option DemoScenario
  deriving Repr

/-- The state of a fresh session (lines 200-211). -/
def init_state : SessionState :=
  { phase := 1, business_context := Json.obj [], spectrum_data := none,
    simulation_data := none, analysis_data := none, selected_demo := none }

/-- Python truthiness of an optional session field (`None` is falsy). -/
def truthyOpt : Option Json → Bool
  | none => false
  | some v => v.truthy

/-- The JSON value a stored optional field contributes to `json.dumps`
(Python `None` serializes as `null`). -/
def optJson : Option Json → Json
  | none => Json.null
  | some v => v

/-- Python `str()` of a parsed JSON value as interpolated by the script's
f-strings.  In all reachable uses these values are strings, rendered
verbatim; the rendering of non-string shapes approximates CPython (which
prints dicts with `repr`), but nothing proved here depends on that text. -/
def fstr : Json → String
  | .str s => s
  | .int n => toString n
  | .bool true => "True"
  | .bool false => "False"
  | .null => "None"
  | v => v.dumps

/-- The Phase-1 prompt (lines 295-306), a total function of the three
input strings. -/
def spectrumPrompt (business_type current_rule scenario : String) : String :=
  "You are a Complexity Analyst. Analyze the following business scenario.\n\n"
    ++ "Business Type: " ++ business_type
    ++ "\nCurrent Rule: " ++ current_rule
    ++ "\nCrisis: " ++ scenario
    ++ "\n\nTask:\n"
    ++ "1. Identify the most critical psychological Prior (belief) and Operational Constraint in conflict.\n"
    ++ "2. Generate a spectrum of 10 agents with a bimodal distribution (4 high adherence, 4 low adherence, 2 neutral).\n"
    ++ "3. Assign each agent a persona and prior score (1-10 scale).\n\n"
    ++ "Output must strictly follow the JSON schema."

/-- The Phase-1 message list (lines 308-311). -/
def spectrumMessages (business_type current_rule scenario : String) : List Message :=
  [{ role := "system",
     content := "You are a business systems analyst. Generate realistic agent profiles." },
   { role := "user", content := spectrumPrompt business_type current_rule scenario }]

/-- The Phase-2 prompt (lines 358-375): the f-string dereferences the
stored context and spectrum (`context[...]`, `spectrum[...]` chains and
`json.dumps(spectrum[agent_spectrum], indent=2)`); a missing key raises,
modelled by `none`. -/
def simulationPrompt (context spectrum : Json) (simulation_days : Nat) : Option String := do
  let bt ← context.get? "business_type"
  let sc ← context.get? "scenario"
  let cr ← context.get? "current_rule"
  let conflict ← spectrum.get? "critical_conflict"
  let pp ← conflict.get? "psychological_prior"
  let ppn ← pp.get? "name"
  let oc ← conflict.get? "operational_constraint"
  let ocn ← oc.get? "name"
  let agents ← spectrum.get? "agent_spectrum"
  return "Run a " ++ toString simulation_days ++ "-day simulation.\n\n"
    ++ "Context: " ++ fstr bt ++ " | " ++ fstr sc
    ++ "\nRule: " ++ fstr cr
    ++ "\nConflict: " ++ fstr ppn ++ " vs " ++ fstr ocn
    ++ "\n\nAgents:\n" ++ agents.dumps
    ++ "\n\nTask:\nSimulate interactions over " ++ toString simulation_days ++ " days.\n"
    ++ "Track:\n1. Activity & Decisions\n"
    ++ "2. Approval Status (Approved/Delayed/Bypassed)\n"
    ++ "3. System Risk Score (Start 0. Add +2 for protests/delays, +10 for bypasses/violations).\n"
    ++ "4. Narrative outcome.\n\nIdentify the specific Tipping Point day."

/-- The Phase-2 message list (lines 377-380). -/
def simulationMessages (prompt : String) : List Message :=
  [{ role := "system",
     content := "You are a dynamic simulation engine. Generate time-step narratives showing risk accumulation." },
   { role := "user", content := prompt }]

/-- The Phase-3 prompt (lines 443-452): dereferences
`business_context[business_type]` and dumps the stored simulation. -/
def analysisPrompt (context : Json) (simulation : Option Json) : Option String := do
  let bt ← context.get? "business_type"
  return "Analyze this simulation log.\n\nBusiness: " ++ fstr bt
    ++ "\nSimulation: " ++ (optJson simulation).dumps
    ++ "\n\nTask:\n1. Extract structural patterns (fracture, tipping point, failure mechanism).\n"
    ++ "2. Diagnose mechanism and driver failures.\n"
    ++ "3. Propose structural solutions. \n"
    ++ "CRITICAL: For each solution, provide a \x27prescriptive_action_plan\x27 containing specific metrics, bonuses, or exact rule changes (The \x27How-To\x27 layer)."

/-- The Phase-3 message list (lines 454-457). -/
def analysisMessages (prompt : String) : List Message :=
  [{ role := "system",
     content := "You are a structural analyst. Provide deep system diagnostics and prescriptive, actionable fixes." },
   { role := "user", content := prompt }]

/-! ## Rendering guards

Widgets only exist if the code above them ran without an exception, so an
action can only fire when the dereferences performed by the surrounding
render succeeded.  The pandas calls (`pd.DataFrame`, `set_index`,
`iloc[-1]`) are approximated by requiring a non-empty list whose rows all
carry the accessed columns. -/

/-- The Phase-2 body above the Run-Simulation button (lines 331-351):
conflict names, the agent bar chart and the agent detail list. -/
def phase2RenderOk (spectrum : Json) : Bool :=
  (match spectrum.get? "critical_conflict" with
   | some conflict =>
       (match conflict.get? "psychological_prior" with
        | some pp => (pp.get? "name").isSome
        | none => false)
       && (match conflict.get? "operational_constraint" with
           | some oc => (oc.get? "name").isSome
           | none => false)
   | none => false)
  && (match spectrum.get? "agent_spectrum" with
      | some (.arr agents) =>
          !agents.isEmpty && agents.all (fun a =>
            (a.get? "agent_id").isSome && (a.get? "prior_score").isSome
            && (a.get? "persona").isSome && (a.get? "description").isSome)
      | _ => false)

/-- The accesses of Phase-3 Section A (lines 398-428): the timeline rows,
the risk chart with its `iloc[-1]`, and the tipping point. -/
def sectionAOk (sim : Json) : Bool :=
  (match sim.get? "timeline" with
   | some (.arr events) =>
       !events.isEmpty && events.all (fun e =>
         (e.get? "time_step").isSome && (e.get? "system_risk_score").isSome
         && (e.get? "approval_status").isSome && (e.get? "narrative_outcome").isSome)
   | _ => false)
  && (match sim.get? "tipping_point" with
      | some tp => (tp.get? "day").isSome && (tp.get? "description").isSome
      | none => false)

/-- Section A runs only under `if st.session_state.simulation_data:`;
a falsy value skips it entirely. -/
def phase3RenderAOk (simulation : Option Json) : Bool :=
  match simulation with
  | some sim => if sim.truthy then sectionAOk sim else true
  | none => true

/-- The analysis display (lines 466-504), which sits above the export and
reset buttons. -/
def analysisDisplayOk (analysis : Json) : Bool :=
  (match analysis.get? "structural_patterns" with
   | some sp => (sp.get? "fracture").isSome && (sp.get? "tipping_point").isSome
       && (sp.get? "mechanism_of_failure").isSome
   | none => false)
  && (match analysis.get? "diagnosis" with
      | some dg => (dg.get? "mechanism_failure").isSome
          && (dg.get? "driver_failure").isSome
      | none => false)
  && (match analysis.get? "proposed_solutions" with
      | some (.arr sols) => sols.all (fun sol =>
          (sol.get? "solution_name").isSome && (sol.get? "description").isSome
          && (sol.get? "implementation").isSome
          && (sol.get? "prescriptive_action_plan").isSome)
      | _ => false)

/-! ## One user interaction -/

/-- The widget events a run can carry.  `idle` is a run with no effective
event (first visit, input typing). -/
inductive UserAction where
  | idle : UserAction
  | selectDemo (name : String) : UserAction
  | generateSpectrum (business_type current_rule scenario : String)
      (outcome : ApiOutcome) : UserAction
  | runSimulation (simulation_days : Nat) (outcome : ApiOutcome) : UserAction
  | generateAnalysis (outcome : ApiOutcome) : UserAction
  | reset : UserAction

/-- The default values shown in the three Phase-1 inputs. -/
structure Prefill where
  business : String
  rule : String
  scenario : String
  deriving Repr, DecidableEq

/-- The Phase-1 body above the generate button (lines 263-274): a pending
demo selection becomes the input defaults and is cleared. -/
def phase1Render (s : SessionState) : SessionState × Prefill :=
  match s.selected_demo with
  | some demo =>
      ({ s with selected_demo := none },
       { business := demo.business_type, rule := demo.current_rule,
         scenario := demo.scenario })
  | none => (s, { business := "", rule := "", scenario := "" })

/-- A run whose event does not reach an enabled widget branch: only the
Phase-1 render has a state effect (consuming a pending demo selection). -/
def renderOnly (s : SessionState) : SessionState × Option Prefill :=
  if s.phase = 1 then
    let r := phase1Render s
    (r.1, some r.2)
  else (s, none)

/-- Result of one interaction: the state after the run (and the rerun it
triggers), how many external inference calls were issued, and the Phase-1
input defaults computed by the concluding render when Phase 1 rendered. -/
structure StepResult where
  state : SessionState
  calls : Nat
  prefill : Option Prefill
  deriving Repr

/-- One user interaction: the script run carrying the event, plus the
`st.rerun()` it triggers on a state change.  Each branch mirrors the
module-level `if st.session_state.phase == ...` blocks of the script. -/
def step (s : SessionState) (a : UserAction) : StepResult :=
  match a with
  | .idle =>
      let r := renderOnly s
      { state := r.1, calls := 0, prefill := r.2 }
  | .selectDemo name =>
      if s.phase = 1 then
        match DEMO_SCENARIOS.lookup name with
        | some demo =>
            let r := phase1Render { s with selected_demo := some demo }
            { state := r.1, calls := 0, prefill := some r.2 }
        | none =>
            let r := renderOnly s
            { state := r.1, calls := 0, prefill := r.2 }
      else
        let r := renderOnly s
        { state := r.1, calls := 0, prefill := r.2 }
  | .generateSpectrum business_type current_rule scenario outcome =>
      if s.phase = 1 then
        let r := phase1Render s
        if business_type ≠ "" ∧ current_rule ≠ "" ∧ scenario ≠ "" then
          match call_cerebras (spectrumMessages business_type current_rule scenario)
              SPECTRUM_SCHEMA "spectrum_schema" outcome with
          | some result =>
              if result.truthy then
                { state := { r.1 with
                    spectrum_data := some result,
                    business_context := Json.obj [
                      ("business_type", .str business_type),
                      ("scenario", .str scenario),
                      ("current_rule", .str current_rule)],
                    phase := 2 },
                  calls := 1, prefill := none }
              else { state := r.1, calls := 1, prefill := some r.2 }
          | none => { state := r.1, calls := 1, prefill := some r.2 }
        else { state := r.1, calls := 0, prefill := some r.2 }
      else
        let r := renderOnly s
        { state := r.1, calls := 0, prefill := r.2 }
  | .runSimulation simulation_days outcome =>
      if s.phase = 2 ∧ truthyOpt s.spectrum_data
          ∧ phase2RenderOk (optJson s.spectrum_data) then
        match simulationPrompt s.business_context (optJson s.spectrum_data)
            simulation_days with
        | some prompt =>
            match call_cerebras (simulationMessages prompt) SIMULATION_SCHEMA
                "simulation_schema" outcome with
            | some result =>
                if result.truthy then
                  { state := { s with simulation_data := some result, phase := 3 },
                    calls := 1, prefill := none }
                else { state := s, calls := 1, prefill := none }
            | none => { state := s, calls := 1, prefill := none }
        | none => { state := s, calls := 0, prefill := none }
      else
        let r := renderOnly s
        { state := r.1, calls := 0, prefill := r.2 }
  | .generateAnalysis outcome =>
      if s.phase = 3 ∧ phase3RenderAOk s.simulation_data
          ∧ ¬ truthyOpt s.analysis_data then
        match analysisPrompt s.business_context s.simulation_data with
        | some prompt =>
            match call_cerebras (analysisMessages prompt) ANALYSIS_SCHEMA
                "analysis_schema" outcome with
            | some result =>
                if result.truthy then
                  { state := { s with analysis_data := some result },
                    calls := 1, prefill := none }
                else { state := s, calls := 1, prefill := none }
            | none => { state := s, calls := 1, prefill := none }
        | none => { state := s, calls := 0, prefill := none }
      else
        let r := renderOnly s
        { state := r.1, calls := 0, prefill := r.2 }
  | .reset =>
      if s.phase = 3 ∧ phase3RenderAOk s.simulation_data
          ∧ truthyOpt s.analysis_data
          ∧ analysisDisplayOk (optJson s.analysis_data) then
        let r := phase1Render { s with
          spectrum_data := none, simulation_data := none, analysis_data := none,
          phase := 1 }
        { state := r.1, calls := 0, prefill := some r.2 }
      else
        let r := renderOnly s
        { state := r.1, calls := 0, prefill := r.2 }

/-- The export artifact `full_report` (lines 509-514). -/
def full_report (s : SessionState) : Json :=
  Json.obj [
    ("context", s.business_context),
    ("spectrum", optJson s.spectrum_data),
    ("simulation", optJson s.simulation_data),
    ("analysis", optJson s.analysis_data)]

/-- Outcome of one full execution of the script file. -/
inductive ScriptOutcome where
  | halted (errMsg : String) : ScriptOutcome
  | ran (result : StepResult) : ScriptOutcome

/-- One full execution of the script: `client = get_cerebras_client()`
runs at line 20, before `st.set_page_config` and every widget (line 216
onward).  `os.environ.get` returning `None` or a falsy (empty) string
shows the error and `st.stop()`s the run: no wizard UI is rendered and no
inference call can be made. -/
def runScript (env : String → Option String) (s : SessionState) (a : UserAction) :
    ScriptOutcome :=
  match env "CEREBRAS_API_KEY" with
  | none => .halted "CEREBRAS_API_KEY not found in environment variables"
  | some key =>
      if key = "" then .halted "CEREBRAS_API_KEY not found in environment variables"
      else .ran (step s a)

/-- The session states reachable from a fresh session by user
interactions (with arbitrary external-call outcomes). -/
inductive Reachable : SessionState → Prop where
  | init : Reachable init_state
  | next (s : SessionState) (a : UserAction) : Reachable s → Reachable (step s a).state

/-! ## Concrete sample data -/

/-- A well-formed spectrum reply, as constrained by `SPECTRUM_SCHEMA`. -/
def sampleSpectrum : Json :=
  .obj [
    ("critical_conflict", .obj [
      ("psychological_prior", .obj [
        ("name", .str "Loyalty"), ("scale_description", .str "1-10")]),
      ("operational_constraint", .obj [
        ("name", .str "QA Gate"), ("description", .str "Both approvals required")])]),
    ("agent_spectrum", .arr [
      .obj [("agent_id", .str "A1"), ("prior_score", .int 9),
        ("persona", .str "Founder"), ("description", .str "Revenue first")],
      .obj [("agent_id", .str "A2"), ("prior_score", .int 2),
        ("persona", .str "Architect"), ("description", .str "Quality first")]])]

/-- A well-formed simulation reply, as constrained by `SIMULATION_SCHEMA`. -/
def sampleSimulation : Json :=
  .obj [
    ("timeline", .arr [
      .obj [("time_step", .str "Day 1"), ("agent_activity", .str "Kickoff"),
        ("approval_status", .str "Approved"), ("system_risk_score", .int 0),
        ("narrative_outcome", .str "Calm start")],
      .obj [("time_step", .str "Day 2"), ("agent_activity", .str "Bypass attempt"),
        ("approval_status", .str "Bypassed"), ("system_risk_score", .int 10),
        ("narrative_outcome", .str "Risk spikes")]]),
    ("tipping_point", .obj [
      ("day", .str "Day 2"), ("description", .str "QA bypassed under pressure")])]

/-- A well-formed analysis reply, as constrained by `ANALYSIS_SCHEMA`. -/
def sampleAnalysis : Json :=
  .obj [
    ("structural_patterns", .obj [
      ("fracture", .str "Dual approval collapses"), ("tipping_point", .str "Day 2"),
      ("mechanism_of_failure", .str "Pressure overrides gate")]),
    ("diagnosis", .obj [
      ("mechanism_failure", .str "Gate lacks teeth"),
      ("driver_failure", .str "Misaligned incentives")]),
    ("proposed_solutions", .arr [
      .obj [("solution_name", .str "Escrowed bonus"),
        ("description", .str "Tie bonus to defect rate"),
        ("implementation", .str "Quarterly review"),
        ("prescriptive_action_plan", .str "Set defect threshold 0.5%")]])]

/-- A concrete Phase-3 session with every slot filled. -/
def sampleState3 : SessionState :=
  { phase := 3,
    business_context := Json.obj [
      ("business_type", .str "High-end Software Agency"),
      ("scenario", .str "Crisis"),
      ("current_rule", .str "Dual approval")],
    spectrum_data := some sampleSpectrum,
    simulation_data := some sampleSimulation,
    analysis_data := some sampleAnalysis,
    selected_demo := none }

/-- A concrete Phase-2 session. -/
def sampleState2 : SessionState :=
  { phase := 2,
    business_context := Json.obj [
      ("business_type", .str "High-end Software Agency"),
      ("scenario", .str "Crisis"),
      ("current_rule", .str "Dual approval")],
    spectrum_data := some sampleSpectrum,
    simulation_data := none,
    analysis_data := none,
    selected_demo := none }

/-! ## Claims -/

/-- C7: if the required API credential is missing from the environment at
startup, the script halts with the configuration error before any wizard
UI is rendered and before any inference call can be made. -/
theorem C7_missing_credential_halts (env : String → Option String) (s : SessionState)
    (a : UserAction) (h : env "CEREBRAS_API_KEY" = none) :
    runScript env s a
      = .halted "CEREBRAS_API_KEY not found in environment variables" := by
  simp [runScript, h]

theorem C7_witness :
    (fun (_ : String) => (none : Option String)) "CEREBRAS_API_KEY" = none ∧
      runScript (fun _ => none) init_state .idle
        = .halted "CEREBRAS_API_KEY not found in environment variables" :=
  ⟨rfl, C7_missing_credential_halts (fun _ => none) init_state .idle rfl⟩

/-- C10: `call_cerebras` never propagates an exception: it returns the
parsed JSON object exactly when the try body succeeds, and `None` on any
exception, including a raise from the API call and a JSON parse failure
of the reply body; callers distinguish success from failure solely by a
`None` check. -/
theorem C10_gateway_total (messages : List Message) (schema : Json)
    (schema_name : String) (outcome : ApiOutcome) :
    (∀ v, call_cerebras messages schema schema_name outcome = some v
      ↔ call_cerebras_body outcome = .ok v)
    ∧ (∀ e, call_cerebras_body outcome = .error e
        → call_cerebras messages schema schema_name outcome = none)
    ∧ (∀ msg, outcome = .raise msg
        → call_cerebras messages schema schema_name outcome = none)
    ∧ ∀ str, outcome = .content str → Json.parse str = none
        → call_cerebras messages schema schema_name outcome = none := by
  refine ⟨?_, ?_, ?_, ?_⟩
  · intro v
    unfold call_cerebras
    cases h : call_cerebras_body outcome <;> simp
  · intro e he
    simp [call_cerebras, he]
  · intro msg hm
    subst hm
    simp [call_cerebras, call_cerebras_body]
  · intro str hs hp
    subst hs
    simp [call_cerebras, call_cerebras_body, hp]

theorem C10_witness :
    ((ApiOutcome.content "not json") = .content "not json" ∧ Json.parse "not json" = none)
      ∧ call_cerebras [] (Json.obj []) "" (.content "not json") = none :=
  ⟨⟨rfl, rfl⟩,
    (C10_gateway_total [] (Json.obj []) "" (.content "not json")).2.2.2 "not json" rfl rfl⟩

/-- C3: when the Phase-2 inference call fails (the gateway raises or the
reply does not parse, so no result is returned), the session is exactly
as before: the phase is still 2 and the stored spectrum, context and
simulation fields are untouched, so the action can be retried. -/
theorem C3_phase2_failure_preserves_state (s : SessionState) (days : Nat)
    (outcome : ApiOutcome) (e : PyError) (hp : s.phase = 2)
    (herr : call_cerebras_body outcome = .error e) :
    (step s (.runSimulation days outcome)).state = s := by
  have hcall : ∀ m sch nm, call_cerebras m sch nm outcome = none := by
    intro m sch nm
    simp [call_cerebras, herr]
  simp only [step]
  by_cases hg : s.phase = 2 ∧ truthyOpt s.spectrum_data = true
      ∧ phase2RenderOk (optJson s.spectrum_data) = true
  · rw [if_pos hg]
    cases hpr : simulationPrompt s.business_context (optJson s.spectrum_data) days with
    | none => rfl
    | some prompt =>
        dsimp only
        rw [hcall]
  · rw [if_neg hg]
    simp [renderOnly, hp]

theorem C3_witness :
    (sampleState2.phase = 2
        ∧ call_cerebras_body (.raise "connection error") = .error (.apiError "connection error"))
      ∧ (step sampleState2 (.runSimulation 5 (.raise "connection error"))).state
          = sampleState2 :=
  ⟨⟨rfl, rfl⟩,
    C3_phase2_failure_preserves_state sampleState2 5 (.raise "connection error")
      (.apiError "connection error") rfl rfl⟩

theorem step_analysis_data (s : SessionState) (a : UserAction) :
    (step s a).state.analysis_data = s.analysis_data
      ∨ (step s a).state.analysis_data = none
      ∨ ∃ v, (step s a).state.analysis_data = some v ∧ v.truthy = true := by
  have hp1 : ∀ (t : SessionState), (phase1Render t).1.analysis_data = t.analysis_data := by
    intro t
    unfold phase1Render
    cases t.selected_demo <;> rfl
  have hro : ∀ (t : SessionState), (renderOnly t).1.analysis_data = t.analysis_data := by
    intro t
    unfold renderOnly
    split
    · exact hp1 t
    · rfl
  cases a with
  | idle => exact Or.inl (hro s)
  | selectDemo name =>
      simp only [step]
      split
      · split
        · exact Or.inl (hp1 _)
        · exact Or.inl (hro s)
      · exact Or.inl (hro s)
  | generateSpectrum bt cr sc outcome =>
      simp only [step]
      split
      · split
        · split
          · split
            · exact Or.inl (hp1 s)
            · exact Or.inl (hp1 s)
          · exact Or.inl (hp1 s)
        · exact Or.inl (hp1 s)
      · exact Or.inl (hro s)
  | runSimulation days outcome =>
      simp only [step]
      split
      · split
        · split
          · split
            · exact Or.inl rfl
            · exact Or.inl rfl
          · exact Or.inl rfl
        · exact Or.inl rfl
      · exact Or.inl (hro s)
  | generateAnalysis outcome =>
      simp only [step]
      split
      · split
        · split
          · split
            · rename_i result heq htruthy
              exact Or.inr (Or.inr ⟨result, rfl, htruthy⟩)
            · exact Or.inl rfl
          · exact Or.inl rfl
        · exact Or.inl rfl
      · exact Or.inl (hro s)
  | reset =>
      simp only [step]
      split
      · exact Or.inr (Or.inl (hp1 _))
      · exact Or.inl (hro s)

/-- In a reachable session the stored AnalysisResult, when present, is
truthy: only truthy parsed replies are ever stored. -/
theorem analysis_stored_truthy :
    ∀ s, Reachable s → s.analysis_data = none
      ∨ ∃ v, s.analysis_data = some v ∧ v.truthy = true := by
  intro s hs
  induction hs with
  | init => exact Or.inl rfl
  | next s a hs ih =>
      rcases step_analysis_data s a with h | h | h
      · rw [h]; exact ih
      · exact Or.inl h
      · exact Or.inr h

/-- A spectrum-shaped reply used to drive a concrete reachable session;
the script performs no local shape validation beyond what the rendering
dereferences, so string scores pass through it. -/
def wSpectrum : Json :=
  .obj [
    ("critical_conflict", .obj [
      ("psychological_prior", .obj [
        ("name", .str "Loyalty"), ("scale_description", .str "low-high")]),
      ("operational_constraint", .obj [
        ("name", .str "QA Gate"), ("description", .str "Hard gate")])]),
    ("agent_spectrum", .arr [
      .obj [("agent_id", .str "A1"), ("prior_score", .str "high"),
        ("persona", .str "Founder"), ("description", .str "Revenue first")]])]

/-- A simulation-shaped reply used to drive a concrete reachable session. -/
def wSimulation : Json :=
  .obj [
    ("timeline", .arr [
      .obj [("time_step", .str "Day 1"), ("agent_activity", .str "Kickoff"),
        ("approval_status", .str "Approved"), ("system_risk_score", .str "zero"),
        ("narrative_outcome", .str "Calm start")]]),
    ("tipping_point", .obj [
      ("day", .str "Day 1"), ("description", .str "Early fracture")])]

/-- A concrete reachable Phase-3 session with a stored AnalysisResult,
produced by running three successful interactions from a fresh session. -/
def wState3 : SessionState :=
  (step (step (step init_state
      (.generateSpectrum "a" "b" "c" (.content (Json.dumps wSpectrum)))).state
    (.runSimulation 5 (.content (Json.dumps wSimulation)))).state
    (.generateAnalysis (.content (Json.dumps sampleAnalysis)))).state

/-- C5: in a reachable session in Phase 3 with an AnalysisResult already
stored, no user action issues a new external inference call, and
re-clicking the analysis action leaves the session unchanged; only a
reset (which clears the stored result) can make the call possible again.
(A stored result is necessarily truthy: only truthy parsed replies are
ever stored.) -/
theorem C5_analysis_idempotent (s : SessionState) (v : Json) (hreach : Reachable s)
    (hp : s.phase = 3) (ha : s.analysis_data = some v) :
    (∀ a, (step s a).calls = 0)
      ∧ ∀ outcome, step s (.generateAnalysis outcome)
          = { state := s, calls := 0, prefill := none } := by
  have htr : truthyOpt s.analysis_data = true := by
    rcases analysis_stored_truthy s hreach with h | ⟨w, hw, htw⟩
    · rw [ha] at h; cases h
    · rw [hw]
      simpa [truthyOpt] using htw
  have hro : renderOnly s = (s, none) := by simp [renderOnly, hp]
  constructor
  · intro a
    cases a with
    | idle => simp [step, hro]
    | selectDemo name =>
        simp only [step]
        rw [if_neg (by omega : ¬ s.phase = 1)]
    | generateSpectrum bt cr sc outcome =>
        simp only [step]
        rw [if_neg (by omega : ¬ s.phase = 1)]
    | runSimulation days outcome =>
        simp only [step]
        rw [if_neg (by simp [hp] : ¬ (s.phase = 2 ∧ truthyOpt s.spectrum_data = true
          ∧ phase2RenderOk (optJson s.spectrum_data) = true))]
    | generateAnalysis outcome =>
        simp only [step]
        rw [if_neg (by simp [htr] : ¬ (s.phase = 3 ∧ phase3RenderAOk s.simulation_data = true
          ∧ ¬ truthyOpt s.analysis_data = true))]
    | reset =>
        simp only [step]
        by_cases hg : s.phase = 3 ∧ phase3RenderAOk s.simulation_data = true
            ∧ truthyOpt s.analysis_data = true
            ∧ analysisDisplayOk (optJson s.analysis_data) = true
        · rw [if_pos hg]
        · rw [if_neg hg]
  · intro outcome
    simp only [step]
    rw [if_neg (by simp [htr] : ¬ (s.phase = 3 ∧ phase3RenderAOk s.simulation_data = true
      ∧ ¬ truthyOpt s.analysis_data = true))]
    simp [hro]

theorem C5_witness :
    (Reachable wState3 ∧ wState3.phase = 3
        ∧ wState3.analysis_data = some sampleAnalysis)
      ∧ (step wState3 .idle).calls = 0
      ∧ step wState3 (.generateAnalysis (.raise "x"))
          = { state := wState3, calls := 0, prefill := none } :=
  have hr : Reachable wState3 :=
    Reachable.next _ _ (Reachable.next _ _ (Reachable.next _ _ Reachable.init))
  ⟨⟨hr, rfl, rfl⟩,
    (C5_analysis_idempotent wState3 sampleAnalysis hr rfl rfl).1 _,
    (C5_analysis_idempotent wState3 sampleAnalysis hr rfl rfl).2 _⟩

/-- C8: selecting the "Healthcare Staffing Shortage" demo performs no
external call and leaves the session (and its phase) unchanged; the
concluding render pre-fills the three Phase-1 inputs verbatim from the
fixed preset table, with business type "Regional Hospital Network". -/
theorem C8_healthcare_demo_prefill (s : SessionState) (hp : s.phase = 1)
    (hd : s.selected_demo = none) :
    step s (.selectDemo "Healthcare Staffing Shortage")
      = { state := s, calls := 0,
          prefill := some {
            business := "Regional Hospital Network",
            rule := "Mandatory nurse-to-patient ratios (1:4 in general care, 1:2 in ICU). No nurse can work more than 12-hour shifts.",
            scenario := "Flu outbreak causes 30% staff shortage. Emergency room wait times hit 8 hours. Administration considers suspending ratio requirements." } } := by
  obtain ⟨p, bc, sp, si, an, sd⟩ := s
  simp only at hp hd
  subst hp
  subst hd
  rfl

theorem C8_witness :
    (init_state.phase = 1 ∧ init_state.selected_demo = none)
      ∧ step init_state (.selectDemo "Healthcare Staffing Shortage")
          = { state := init_state, calls := 0,
              prefill := some {
                business := "Regional Hospital Network",
                rule := "Mandatory nurse-to-patient ratios (1:4 in general care, 1:2 in ICU). No nurse can work more than 12-hour shifts.",
                scenario := "Flu outbreak causes 30% staff shortage. Emergency room wait times hit 8 hours. Administration considers suspending ratio requirements." } } :=
  ⟨⟨rfl, rfl⟩, C8_healthcare_demo_prefill init_state rfl rfl⟩

/-- C1 counterexample: at a concrete Phase-3 session, "Start New Scenario"
clears the three results and returns to Phase 1, but the stored
BusinessContext survives wholesale — every field of the previous
scenario's context is still present, refuting "the stored BusinessContext
is also discarded". -/
theorem C1_counterexample :
    (step sampleState3 .reset).state.phase = 1
      ∧ (step sampleState3 .reset).state.spectrum_data = none
      ∧ (step sampleState3 .reset).state.simulation_data = none
      ∧ (step sampleState3 .reset).state.analysis_data = none
      ∧ (step sampleState3 .reset).state.business_context
          = Json.obj [("business_type", .str "High-end Software Agency"),
              ("scenario", .str "Crisis"), ("current_rule", .str "Dual approval")]
      ∧ (step sampleState3 .reset).state.business_context ≠ Json.obj [] := by
  have h : (step sampleState3 .reset).state.business_context
      = Json.obj [("business_type", .str "High-end Software Agency"),
          ("scenario", .str "Crisis"), ("current_rule", .str "Dual approval")] := rfl
  exact ⟨rfl, rfl, rfl, rfl, h, by rw [h]; simp⟩

/-- C1 (amended): when the reset action fires from Phase 3, the session's
SpectrumResult, SimulationResult and AnalysisResult are cleared, the phase
is set to 1 and any pending demo selection is cleared — but the stored
BusinessContext is NOT discarded: it survives the reset unchanged and is
only overwritten by the next Phase1→Phase2 transition. -/
theorem C1_reset_clears_results_keeps_context (s : SessionState)
    (hg : s.phase = 3 ∧ phase3RenderAOk s.simulation_data = true
      ∧ truthyOpt s.analysis_data = true
      ∧ analysisDisplayOk (optJson s.analysis_data) = true) :
    (step s .reset).state
      = { phase := 1, business_context := s.business_context,
          spectrum_data := none, simulation_data := none, analysis_data := none,
          selected_demo := none } := by
  simp only [step]
  rw [if_pos hg]
  cases hd : s.selected_demo with
  | none => simp [phase1Render, hd]
  | some demo => simp [phase1Render, hd]

theorem C1_witness :
    (sampleState3.phase = 3 ∧ phase3RenderAOk sampleState3.simulation_data = true
        ∧ truthyOpt sampleState3.analysis_data = true
        ∧ analysisDisplayOk (optJson sampleState3.analysis_data) = true)
      ∧ (step sampleState3 .reset).state
          = { phase := 1, business_context := sampleState3.business_context,
              spectrum_data := none, simulation_data := none, analysis_data := none,
              selected_demo := none } :=
  ⟨⟨rfl, rfl, rfl, rfl⟩,
    C1_reset_clears_results_keeps_context sampleState3 ⟨rfl, rfl, rfl, rfl⟩⟩

/-- A gateway reply shaped like a spectrum result but with an empty agent
spectrum — `SPECTRUM_SCHEMA` puts no minItems or uniqueness constraint on
`agent_spectrum`, so a schema-conforming reply can look like this. -/
def cexSpectrum : Json :=
  .obj [
    ("critical_conflict", .obj [
      ("psychological_prior", .obj [
        ("name", .str "Loyalty"), ("scale_description", .str "1-10")]),
      ("operational_constraint", .obj [
        ("name", .str "QA Gate"), ("description", .str "Hard gate")])]),
    ("agent_spectrum", .arr [])]

/-- C2 counterexample: a gateway reply whose `agent_spectrum` is empty
still advances the wizard from Phase 1 to Phase 2 and is stored as the
SpectrumResult, refuting "no transition to phase 2 happens for any
gateway result violating either condition". -/
theorem C2_counterexample :
    (step init_state
        (.generateSpectrum "a" "b" "c" (.content (Json.dumps cexSpectrum)))).state.phase = 2
      ∧ (step init_state
          (.generateSpectrum "a" "b" "c"
            (.content (Json.dumps cexSpectrum)))).state.spectrum_data = some cexSpectrum
      ∧ cexSpectrum.get? "agent_spectrum" = some (.arr []) := ⟨rfl, rfl, rfl⟩

/-- C2 (amended): with the Phase-1 generate action enabled (all three
inputs non-empty), the Phase1→Phase2 transition occurs exactly when the
gateway call returns a parsed, truthy result, which is then stored as the
SpectrumResult; the script checks neither non-emptiness of
`agent_spectrum` nor uniqueness of its `agent_id`s (and `SPECTRUM_SCHEMA`
does not express such constraints). -/
theorem C2_transition_iff_truthy_result (s : SessionState) (bt cr sc : String)
    (outcome : ApiOutcome) (hp : s.phase = 1) (hbt : bt ≠ "") (hcr : cr ≠ "")
    (hsc : sc ≠ "") :
    ((step s (.generateSpectrum bt cr sc outcome)).state.phase = 2
      ↔ ∃ v, call_cerebras (spectrumMessages bt cr sc) SPECTRUM_SCHEMA
          "spectrum_schema" outcome = some v ∧ v.truthy = true)
    ∧ ∀ v, call_cerebras (spectrumMessages bt cr sc) SPECTRUM_SCHEMA
        "spectrum_schema" outcome = some v → v.truthy = true →
        (step s (.generateSpectrum bt cr sc outcome)).state.spectrum_data = some v := by
  have h1 : (phase1Render s).1.phase = s.phase := by
    unfold phase1Render
    cases s.selected_demo <;> rfl
  constructor
  · simp only [step]
    rw [if_pos hp, if_pos ⟨hbt, hcr, hsc⟩]
    cases hc : call_cerebras (spectrumMessages bt cr sc) SPECTRUM_SCHEMA
        "spectrum_schema" outcome with
    | none =>
        dsimp only
        constructor
        · intro habs
          rw [h1, hp] at habs
          exact absurd habs (by norm_num)
        · rintro ⟨v, hv, _⟩
          exact absurd hv (by simp)
    | some v =>
        dsimp only
        cases ht : v.truthy with
        | false =>
            simp only [Bool.false_eq_true, if_false]
            constructor
            · intro habs
              rw [h1, hp] at habs
              exact absurd habs (by norm_num)
            · rintro ⟨w, hw, htw⟩
              rw [Option.some.injEq] at hw
              subst hw
              exact absurd htw (by simp [ht])
        | true => simp [ht]
  · intro v hv ht
    simp only [step]
    rw [if_pos hp, if_pos ⟨hbt, hcr, hsc⟩, hv]
    dsimp only
    simp [ht]

theorem C2_witness :
    (init_state.phase = 1 ∧ ("a" : String) ≠ "" ∧ ("b" : String) ≠ ""
        ∧ ("c" : String) ≠ "")
      ∧ ((step init_state (.generateSpectrum "a" "b" "c" (.raise "down"))).state.phase = 2
        ↔ ∃ v, call_cerebras (spectrumMessages "a" "b" "c") SPECTRUM_SCHEMA
            "spectrum_schema" (.raise "down") = some v ∧ v.truthy = true) :=
  ⟨⟨rfl, by decide, by decide, by decide⟩,
    (C2_transition_iff_truthy_result init_state "a" "b" "c" (.raise "down") rfl
      (by decide) (by decide) (by decide)).1⟩

/-- C6: serializing the export artifact with the modelled `json.dumps`
and parsing it back with the modelled `json.loads` yields an object with
exactly the four top-level keys context, spectrum, simulation, analysis,
whose values are the BusinessContext, SpectrumResult, SimulationResult
and AnalysisResult stored in the session at export time. -/
theorem C6_export_roundtrip (s : SessionState) (sp sim an : Json)
    (hsp : s.spectrum_data = some sp) (hsim : s.simulation_data = some sim)
    (han : s.analysis_data = some an) :
    Json.parse (Json.dumps (full_report s))
      = some (Json.obj [("context", s.business_context), ("spectrum", sp),
          ("simulation", sim), ("analysis", an)]) := by
  rw [show full_report s
      = Json.obj [("context", s.business_context), ("spectrum", sp),
          ("simulation", sim), ("analysis", an)] from by
    simp [full_report, hsp, hsim, han, optJson]]
  exact parse_dumps _

theorem C6_witness :
    (sampleState3.spectrum_data = some sampleSpectrum
        ∧ sampleState3.simulation_data = some sampleSimulation
        ∧ sampleState3.analysis_data = some sampleAnalysis)
      ∧ Json.parse (Json.dumps (full_report sampleState3))
          = some (Json.obj [("context", sampleState3.business_context),
              ("spectrum", sampleSpectrum), ("simulation", sampleSimulation),
              ("analysis", sampleAnalysis)]) :=
  ⟨⟨rfl, rfl, rfl⟩,
    C6_export_roundtrip sampleState3 sampleSpectrum sampleSimulation sampleAnalysis
      rfl rfl rfl⟩

theorem phase1Render_state (s : SessionState) :
    (phase1Render s).1 = { s with selected_demo := none } ∨ (phase1Render s).1 = s := by
  unfold phase1Render
  cases s.selected_demo with
  | none => right; rfl
  | some demo => left; rfl

theorem renderOnly_state (s : SessionState) :
    (renderOnly s).1 = { s with selected_demo := none } ∨ (renderOnly s).1 = s := by
  unfold renderOnly
  split
  · simpa using phase1Render_state s
  · right; rfl

/-- Case analysis of one interaction at the level of the fields the
invariants track: either the run only (possibly) consumes the pending
demo selection, or it is a successful Phase-1 advance storing a truthy
spectrum, a successful Phase-2 advance storing a truthy simulation, or an
effective reset forcing the phase to 1. -/
theorem step_fields (s : SessionState) (a : UserAction) :
    ((step s a).state.phase = s.phase
        ∧ (step s a).state.spectrum_data = s.spectrum_data
        ∧ (step s a).state.simulation_data = s.simulation_data)
    ∨ (s.phase = 1 ∧ (step s a).state.phase = 2
        ∧ (∃ v, (step s a).state.spectrum_data = some v ∧ v.truthy = true)
        ∧ (step s a).state.simulation_data = s.simulation_data)
    ∨ (s.phase = 2 ∧ (step s a).state.phase = 3
        ∧ (step s a).state.spectrum_data = s.spectrum_data
        ∧ ∃ v, (step s a).state.simulation_data = some v ∧ v.truthy = true)
    ∨ (a = UserAction.reset ∧ (step s a).state.phase = 1) := by
  have hro : ∀ (t : SessionState), (renderOnly t).1.phase = t.phase
      ∧ (renderOnly t).1.spectrum_data = t.spectrum_data
      ∧ (renderOnly t).1.simulation_data = t.simulation_data := by
    intro t
    rcases renderOnly_state t with h | h <;> rw [h] <;> exact ⟨rfl, rfl, rfl⟩
  have hp1 : ∀ (t : SessionState), (phase1Render t).1.phase = t.phase
      ∧ (phase1Render t).1.spectrum_data = t.spectrum_data
      ∧ (phase1Render t).1.simulation_data = t.simulation_data := by
    intro t
    rcases phase1Render_state t with h | h <;> rw [h] <;> exact ⟨rfl, rfl, rfl⟩
  cases a with
  | idle => exact Or.inl (hro s)
  | selectDemo name =>
      simp only [step]
      split
      · split
        · exact Or.inl (hp1 _)
        · exact Or.inl (hro s)
      · exact Or.inl (hro s)
  | generateSpectrum bt cr sc outcome =>
      simp only [step]
      split
      · rename_i hphase
        split
        · split
          · split
            · rename_i result heq htruthy
              exact Or.inr (Or.inl ⟨hphase, rfl, ⟨result, rfl, htruthy⟩, (hp1 s).2.2⟩)
            · exact Or.inl (hp1 s)
          · exact Or.inl (hp1 s)
        · exact Or.inl (hp1 s)
      · exact Or.inl (hro s)
  | runSimulation days outcome =>
      simp only [step]
      split
      · rename_i hguard
        split
        · split
          · split
            · rename_i result heq htruthy
              exact Or.inr (Or.inr (Or.inl ⟨hguard.1, rfl, rfl, result, rfl, htruthy⟩))
            · exact Or.inl ⟨rfl, rfl, rfl⟩
          · exact Or.inl ⟨rfl, rfl, rfl⟩
        · exact Or.inl ⟨rfl, rfl, rfl⟩
      · exact Or.inl (hro s)
  | generateAnalysis outcome =>
      simp only [step]
      split
      · split
        · split
          · split
            · exact Or.inl ⟨rfl, rfl, rfl⟩
            · exact Or.inl ⟨rfl, rfl, rfl⟩
          · exact Or.inl ⟨rfl, rfl, rfl⟩
        · exact Or.inl ⟨rfl, rfl, rfl⟩
      · exact Or.inl (hro s)
  | reset =>
      simp only [step]
      split
      · exact Or.inr (Or.inr (Or.inr ⟨by trivial, (hp1 _).1⟩))
      · exact Or.inl (hro s)

/-- C4: across every interaction the phase never decreases, except as the
immediate effect of the explicit reset action, which sets it to 1; and in
every reachable session the phase stays in the set 1, 2, 3. -/
theorem C4_phase_monotone_and_bounded :
    (∀ (s : SessionState) (a : UserAction),
        s.phase ≤ (step s a).state.phase
          ∨ (a = UserAction.reset ∧ (step s a).state.phase = 1))
      ∧ ∀ s, Reachable s → s.phase = 1 ∨ s.phase = 2 ∨ s.phase = 3 := by
  constructor
  · intro s a
    rcases step_fields s a with ⟨h, _, _⟩ | ⟨h1, h2, _, _⟩ | ⟨h1, h2, _, _⟩ | ⟨h1, h2⟩
    · left; omega
    · left; omega
    · left; omega
    · right; exact ⟨h1, h2⟩
  · intro s hs
    induction hs with
    | init => left; rfl
    | next s a hs ih =>
        rcases step_fields s a with ⟨h, _, _⟩ | ⟨_, h2, _, _⟩ | ⟨_, h2, _, _⟩ | ⟨_, h2⟩
          <;> rcases ih with h1 | h1 | h1 <;> omega

theorem C4_witness :
    (init_state.phase ≤ (step init_state .idle).state.phase
        ∨ (UserAction.idle = UserAction.reset
            ∧ (step init_state .idle).state.phase = 1))
      ∧ (Reachable init_state
          ∧ (init_state.phase = 1 ∨ init_state.phase = 2 ∨ init_state.phase = 3)) :=
  ⟨C4_phase_monotone_and_bounded.1 init_state .idle,
    Reachable.init, C4_phase_monotone_and_bounded.2 init_state Reachable.init⟩

/-- C9: in every reachable session, phase 2 implies a stored (truthy)
SpectrumResult and phase 3 additionally a stored (truthy)
SimulationResult, so the defensive truthiness guards on `spectrum_data`
(Phase 2) and `simulation_data` (Phase 3) never take their false branch. -/
theorem C9_phase_data_invariant :
    ∀ s, Reachable s →
      (s.phase = 2 → s.spectrum_data ≠ none ∧ truthyOpt s.spectrum_data = true)
        ∧ (s.phase = 3 → s.spectrum_data ≠ none ∧ truthyOpt s.spectrum_data = true
            ∧ s.simulation_data ≠ none ∧ truthyOpt s.simulation_data = true) := by
  intro s hs
  induction hs with
  | init =>
      exact ⟨fun h => absurd h (by decide), fun h => absurd h (by decide)⟩
  | next s a hs ih =>
      rcases step_fields s a with ⟨h1, h2, h3⟩ | ⟨h1, h2, ⟨v, hv, htv⟩, h4⟩
        | ⟨h1, h2, h3, v, hv, htv⟩ | ⟨h1, h2⟩
      · constructor
        · intro hp
          rw [h1] at hp
          rw [h2]
          exact ih.1 hp
        · intro hp
          rw [h1] at hp
          rw [h2, h3]
          exact ih.2 hp
      · constructor
        · intro _
          rw [hv]
          exact ⟨by simp, by simp [truthyOpt, htv]⟩
        · intro hp
          rw [h2] at hp
          exact absurd hp (by decide)
      · constructor
        · intro hp
          rw [h2] at hp
          exact absurd hp (by decide)
        · intro _
          rw [h3, hv]
          exact ⟨(ih.1 h1).1, (ih.1 h1).2, by simp, by simp [truthyOpt, htv]⟩
      · constructor
        · intro hp
          rw [h2] at hp
          exact absurd hp (by decide)
        · intro hp
          rw [h2] at hp
          exact absurd hp (by decide)

theorem C9_witness :
    Reachable (step init_state
        (.generateSpectrum "a" "b" "c" (.content (Json.dumps cexSpectrum)))).state
      ∧ (((step init_state
            (.generateSpectrum "a" "b" "c" (.content (Json.dumps cexSpectrum)))).state.phase = 2
          → (step init_state
              (.generateSpectrum "a" "b" "c"
                (.content (Json.dumps cexSpectrum)))).state.spectrum_data ≠ none
            ∧ truthyOpt (step init_state
                (.generateSpectrum "a" "b" "c"
                  (.content (Json.dumps cexSpectrum)))).state.spectrum_data = true)
        ∧ ((step init_state
            (.generateSpectrum "a" "b" "c" (.content (Json.dumps cexSpectrum)))).state.phase = 3
          → (step init_state
              (.generateSpectrum "a" "b" "c"
                (.content (Json.dumps cexSpectrum)))).state.spectrum_data ≠ none
            ∧ truthyOpt (step init_state
                (.generateSpectrum "a" "b" "c"
                  (.content (Json.dumps cexSpectrum)))).state.spectrum_data = true
            ∧ (step init_state
                (.generateSpectrum "a" "b" "c"
                  (.content (Json.dumps cexSpectrum)))).state.simulation_data ≠ none
            ∧ truthyOpt (step init_state
                (.generateSpectrum "a" "b" "c"
                  (.content (Json.dumps cexSpectrum)))).state.simulation_data = true)) :=
  ⟨Reachable.next init_state _ Reachable.init,
    C9_phase_data_invariant _ (Reachable.next init_state _ Reachable.init)⟩

end StressTest
